import Mathlib

set_option maxHeartbeats 1000000
set_option maxRecDepth 100000

namespace Upgradoor

/-! Shallow embedding of the decipher-solidity-upgradoor analysis engine.

The definitions below are translated from the TypeScript sources:
`engine/src/types.ts`, `engine/src/report/aggregator.ts`, the storage-layout
analyzer, the abi-diff analyzer, the uups-safety analyzer, the proxy detector
(`detectProxy`), the markdown report generator and the engine orchestrator
(`UpgradoorEngine.analyze`).  JavaScript records (plain objects) are modelled
as association lists in insertion order; JavaScript `Map` lookups are modelled
by the corresponding association-list operations. -/

/-- Severity of a finding (types.ts: `Severity`). -/
inductive Severity where
  | CRITICAL
  | HIGH
  | MEDIUM
  | LOW
  deriving DecidableEq, Repr

/-- Confidence of a finding (types.ts: `Confidence`). -/
inductive Confidence where
  | HIGH_CONFIDENCE
  | MEDIUM_CONFIDENCE
  deriving DecidableEq, Repr

/-- Verdict of the whole analysis (types.ts: `Verdict`). -/
inductive Verdict where
  | SAFE
  | UNSAFE
  | REVIEW_REQUIRED
  | INCOMPLETE
  deriving DecidableEq, Repr

/-- The status tag of an analyzer outcome (types.ts: `AnalyzerResult.status`). -/
inductive AnalyzerStatus where
  | completed
  | skipped
  | errored
  deriving DecidableEq, Repr

/-- A JSON value, used for the `details` map of a finding
(types.ts: `details: Record<string, unknown>`). -/
inductive Json where
  | str (s : String)
  | num (n : Nat)
  | arr (xs : List Json)
  | obj (fields : List (String × Json))
  | jnull

/-- Optional location of a finding (types.ts: `Finding.location`). -/
structure Location where
  contract : Option String := none
  function : Option String := none
  slot : Option Nat := none
  offset : Option Nat := none
  file : Option String := none
  line : Option Nat := none

/-- A finding (types.ts: `Finding`).  The `details` record is modelled as an
association list of JSON values in insertion order. -/
structure Finding where
  code : String
  severity : Severity
  confidence : Confidence
  title : String
  description : String
  details : List (String × Json)
  location : Option Location := none
  remediation : String

/-- Outcome of one analyzer (types.ts: `AnalyzerResult`). -/
inductive AnalyzerResult where
  | completed (findings : List Finding)
  | skipped (reason : String)
  | errored (error : String)

/-- The `status` field of an `AnalyzerResult`. -/
def statusOf : AnalyzerResult → AnalyzerStatus
  | AnalyzerResult.completed _ => AnalyzerStatus.completed
  | AnalyzerResult.skipped _ => AnalyzerStatus.skipped
  | AnalyzerResult.errored _ => AnalyzerStatus.errored

/-- The findings pushed by the aggregation loop for one analyzer result:
the findings of a `completed` result, nothing otherwise (aggregator.ts
lines 35-40). -/
def completedFindings : AnalyzerResult → List Finding
  | AnalyzerResult.completed fs => fs
  | AnalyzerResult.skipped _ => []
  | AnalyzerResult.errored _ => []

/-- Result of `aggregateResults` (aggregator.ts: `AggregatedResult`). -/
structure AggregatedResult where
  verdict : Verdict
  highestSeverity : Option Severity
  findings : List Finding
  analyzerStatus : List (String × AnalyzerStatus)

/-- Severity ordering for comparison (aggregator.ts: `SEVERITY_ORDER`). -/
def severityOrder : Severity → Nat
  | Severity.CRITICAL => 4
  | Severity.HIGH => 3
  | Severity.MEDIUM => 2
  | Severity.LOW => 1

/-- Analyzers that can produce CRITICAL findings; if any of these error the
verdict is INCOMPLETE (aggregator.ts: `CRITICAL_CAPABLE_ANALYZERS`). -/
def criticalCapableAnalyzers : List String :=
  ["proxy-detection", "storage-layout", "abi-diff", "uups-safety",
   "transparent-safety", "initializer-integrity", "access-control-regression"]

/-- One step of the `highestSeverity` accumulation loop
(aggregator.ts lines 52-60). -/
def highestStep (acc : Option Severity) (f : Finding) : Option Severity :=
  match acc with
  | none => some f.severity
  | some h =>
      if severityOrder f.severity > severityOrder h then some f.severity else some h

/-- The findings accumulated by the aggregation loop: the concatenation, in
record-insertion order, of the findings of every completed result
(aggregator.ts lines 35-40). -/
def unionFindings (analyzerResults : List (String × AnalyzerResult)) :
    List Finding :=
  analyzerResults.flatMap (fun p => completedFindings p.2)

/-- The `analyzerStatus` record accumulated by the aggregation loop
(aggregator.ts line 36). -/
def statusMap (analyzerResults : List (String × AnalyzerResult)) :
    List (String × AnalyzerStatus) :=
  analyzerResults.map (fun p => (p.1, statusOf p.2))

/-- Whether any CRITICAL-capable analyzer errored
(aggregator.ts lines 43-45). -/
def anyCriticalCapableErrored
    (analyzerResults : List (String × AnalyzerResult)) : Bool :=
  criticalCapableAnalyzers.any
    (fun name => (statusMap analyzerResults).lookup name ==
      some AnalyzerStatus.errored)

/-- The `highestSeverity` loop of the aggregator (aggregator.ts
lines 52-60). -/
def highestOf (findings : List Finding) : Option Severity :=
  findings.foldl highestStep none

/-- The verdict ladder of the aggregator (aggregator.ts lines 63-72). -/
def verdictOf (findings : List Finding) : Verdict :=
  if findings.any (fun f => f.severity == Severity.CRITICAL) then
    Verdict.UNSAFE
  else if findings.any (fun f => f.severity == Severity.HIGH) then
    Verdict.UNSAFE
  else if findings.any (fun f => f.severity == Severity.MEDIUM) then
    Verdict.REVIEW_REQUIRED
  else
    Verdict.SAFE

/-- The aggregator (aggregator.ts: `aggregateResults`).  The input record
`Record<string, AnalyzerResult>` is modelled as an association list in
insertion order; a JavaScript record never holds two entries with the same
key, so theorems assume the keys are nodup where the lookup semantics
matter. -/
def aggregateResults (analyzerResults : List (String × AnalyzerResult)) :
    AggregatedResult :=
  let findings : List Finding := unionFindings analyzerResults
  let analyzerStatus : List (String × AnalyzerStatus) :=
    statusMap analyzerResults
  if anyCriticalCapableErrored analyzerResults then
    { verdict := Verdict.INCOMPLETE, highestSeverity := none,
      findings := findings, analyzerStatus := analyzerStatus }
  else
    { verdict := verdictOf findings, highestSeverity := highestOf findings,
      findings := findings, analyzerStatus := analyzerStatus }

/-! Storage-layout analyzer (engine/src/analyzers/storage-layout.ts, the
variant whose gap validation matches gaps by slot and counts all appended
variables). -/

/-- An entry of a canonical storage layout (types.ts: `CanonicalStorageEntry`). -/
structure CanonicalStorageEntry where
  slot : Nat
  offset : Nat
  length : Nat
  canonicalType : String
  label : String
  contractOrigin : String
  inheritanceIndex : Nat
  deriving DecidableEq, Repr

/-- Substring test, model of JavaScript `String.prototype.includes`. -/
def strContainsSub (hay needle : String) : Bool :=
  let h := hay.toList
  let n := needle.toList
  (List.range (h.length + 1)).any (fun i => (h.drop i).take n.length == n)

/-- Whether a JavaScript `Map` built from entries keyed by `key` has key `k`
(`Map.prototype.has`). -/
def jsMapHas {α κ : Type} [DecidableEq κ] (key : α → κ) (l : List α) (k : κ) :
    Bool :=
  l.any (fun a => decide (key a = k))

/-- Value under key `k` of a JavaScript `Map` built from entries keyed by
`key`: repeated `set` on the same key overwrites, so the last entry with the
key wins (`Map.prototype.get`). -/
def jsMapGet {α κ : Type} [DecidableEq κ] (key : α → κ) (l : List α) (k : κ) :
    Option α :=
  (l.filter (fun a => decide (key a = k))).getLast?

/-- Iteration order of a JavaScript `Map` built from a list of entries:
keys in first-insertion order, each carrying the last value set for it. -/
def jsMapEntries {α κ : Type} [DecidableEq κ] (key : α → κ) (l : List α) :
    List α :=
  ((l.map key).eraseDups).filterMap (fun k => jsMapGet key l k)

/-- Lowercasing of a string (JavaScript `toLowerCase` on the characters). -/
def strToLower (s : String) : String :=
  String.mk (s.data.map Char.toLower)

/-- Whether `suf` is a suffix of `s`. -/
def strEndsWith (s suf : String) : Bool :=
  List.isSuffixOf suf.data s.data

/-- Whether `pre` is a prefix of `s`. -/
def strStartsWith (s pre : String) : Bool :=
  List.isPrefixOf pre.data s.data

/-- Gap-entry test (storage-layout.ts: `isGapEntry`): label matches `/gap$/i`
and the canonical type starts with `uint256[`. -/
def isGapEntry (e : CanonicalStorageEntry) : Bool :=
  strEndsWith (strToLower e.label) "gap" && strStartsWith e.canonicalType "uint256["

/-- Decimal value of a digit run, model of `parseInt` on a digit string. -/
def digitsToNat (ds : List Char) : Nat :=
  ds.foldl (fun a c => a * 10 + (c.toNat - 48)) 0

/-- Leftmost match of the regex `\[(\d+)\]`: find the first bracket that is
followed by a non-empty digit run and a closing bracket, and parse the run. -/
def extractSizeChars : List Char → Option Nat
  | [] => none
  | c :: rest =>
      if c = '[' then
        let ds := rest.takeWhile Char.isDigit
        let after := rest.dropWhile Char.isDigit
        if ds.isEmpty then extractSizeChars rest
        else if after.head? == some ']' then some (digitsToNat ds)
        else extractSizeChars rest
      else extractSizeChars rest

/-- Declared array size of a `uint256[N]` canonical type
(storage-layout.ts: `extractArraySize`); `0` if the regex does not match. -/
def extractArraySize (canonicalType : String) : Nat :=
  (extractSizeChars canonicalType.toList).getD 0

/-- The STOR-001 finding pushed for a deleted variable. -/
def stor001Finding (oldEntry : CanonicalStorageEntry) : Finding :=
  { code := "STOR-001"
    severity := Severity.CRITICAL
    confidence := Confidence.HIGH_CONFIDENCE
    title := "Storage variable deleted"
    description := "Variable \"" ++ oldEntry.label ++ "\" at slot " ++
      Nat.repr oldEntry.slot ++ " offset " ++ Nat.repr oldEntry.offset ++
      " was deleted in the new implementation."
    details := [("slot", Json.num oldEntry.slot),
      ("offset", Json.num oldEntry.offset),
      ("label", Json.str oldEntry.label),
      ("type", Json.str oldEntry.canonicalType)]
    location := some { slot := some oldEntry.slot, offset := some oldEntry.offset, contract := some oldEntry.contractOrigin }
    remediation := "Do not delete storage variables in upgrades. Mark as unused or replace with a padding variable of the same size." }

/-- The STOR-003 finding pushed for a width change. -/
def stor003Finding (oldEntry newEntry : CanonicalStorageEntry) : Finding :=
  { code := "STOR-003"
    severity := Severity.CRITICAL
    confidence := Confidence.HIGH_CONFIDENCE
    title := "Storage variable type width changed"
    description := "Variable at slot " ++ Nat.repr oldEntry.slot ++
      " changed size: " ++ oldEntry.canonicalType ++ " (" ++
      Nat.repr oldEntry.length ++ " bytes) → " ++ newEntry.canonicalType ++
      " (" ++ Nat.repr newEntry.length ++ " bytes)."
    details := [("slot", Json.num oldEntry.slot),
      ("oldType", Json.str oldEntry.canonicalType),
      ("newType", Json.str newEntry.canonicalType),
      ("oldLength", Json.num oldEntry.length),
      ("newLength", Json.num newEntry.length)]
    location := some { slot := some oldEntry.slot, offset := some oldEntry.offset }
    remediation := "Changing the size of a storage variable corrupts all subsequent slots. Use a new variable appended at the end instead." }

/-- The STOR-004 finding pushed for a type-semantics change. -/
def stor004Finding (oldEntry newEntry : CanonicalStorageEntry) : Finding :=
  { code := "STOR-004"
    severity := Severity.CRITICAL
    confidence := Confidence.HIGH_CONFIDENCE
    title := "Storage variable type semantics changed"
    description := "Variable \"" ++ oldEntry.label ++ "\" at slot " ++
      Nat.repr oldEntry.slot ++ " changed type from " ++
      oldEntry.canonicalType ++ " to " ++ newEntry.canonicalType ++ "."
    details := [("slot", Json.num oldEntry.slot),
      ("oldType", Json.str oldEntry.canonicalType),
      ("newType", Json.str newEntry.canonicalType)]
    location := some { slot := some oldEntry.slot, offset := some oldEntry.offset }
    remediation := "Type changes reinterpret existing on-chain data. Even if sizes match, semantics differ. Add a new variable instead." }

/-- The STOR-010 finding pushed for a renamed variable. -/
def stor010Finding (oldEntry newEntry : CanonicalStorageEntry) : Finding :=
  { code := "STOR-010"
    severity := Severity.LOW
    confidence := Confidence.HIGH_CONFIDENCE
    title := "Storage variable renamed"
    description := "Variable renamed from \"" ++ oldEntry.label ++ "\" to \"" ++
      newEntry.label ++ "\" at slot " ++ Nat.repr oldEntry.slot ++ "."
    details := [("slot", Json.num oldEntry.slot),
      ("oldLabel", Json.str oldEntry.label),
      ("newLabel", Json.str newEntry.label)]
    location := some { slot := some oldEntry.slot }
    remediation := "Renaming is safe — same slot, offset, and type. No action required." }

/-- The STOR-002 finding pushed for a middle insertion. -/
def stor002Finding (newEntry : CanonicalStorageEntry) : Finding :=
  { code := "STOR-002"
    severity := Severity.CRITICAL
    confidence := Confidence.HIGH_CONFIDENCE
    title := "Storage variable inserted in middle"
    description := "New variable \"" ++ newEntry.label ++ "\" inserted at slot " ++
      Nat.repr newEntry.slot ++
      " (within existing layout). This shifts all subsequent variables."
    details := [("slot", Json.num newEntry.slot),
      ("label", Json.str newEntry.label),
      ("type", Json.str newEntry.canonicalType)]
    location := some { slot := some newEntry.slot }
    remediation := "Never insert variables in the middle of the storage layout. Append new variables after the last existing slot." }

/-- The STOR-009 finding pushed once for the appended variables. -/
def stor009Finding (newVars : List CanonicalStorageEntry) : Finding :=
  { code := "STOR-009"
    severity := Severity.MEDIUM
    confidence := Confidence.HIGH_CONFIDENCE
    title := "New storage variable(s) appended"
    description := Nat.repr newVars.length ++
      " new variable(s) appended after the existing layout."
    details := [("newVariables", Json.arr (newVars.map (fun v =>
      Json.obj [("slot", Json.num v.slot), ("label", Json.str v.label),
        ("type", Json.str v.canonicalType)])))]
    remediation := "Ensure the storage gap (if any) was decremented by the correct number of slots." }

/-- The STOR-008 finding pushed for a removed gap. -/
def stor008Finding (oldGap : CanonicalStorageEntry) (oldN : Nat) : Finding :=
  { code := "STOR-008"
    severity := Severity.HIGH
    confidence := Confidence.HIGH_CONFIDENCE
    title := "Storage gap removed"
    description := "Storage gap \"" ++ oldGap.label ++ "\" at slot " ++
      Nat.repr oldGap.slot ++ " was removed entirely in the new implementation."
    details := [("oldGapSize", Json.num oldN), ("slot", Json.num oldGap.slot)]
    location := some { slot := some oldGap.slot, contract := some oldGap.contractOrigin }
    remediation := "Do not remove storage gaps. If adding new variables, decrement the gap size by the number of new slots consumed." }

/-- The STOR-007 finding pushed for an insufficient gap. -/
def stor007Finding (oldGap matchingNewGap : CanonicalStorageEntry)
    (oldN newN totalNewVarsAdded : Nat) : Finding :=
  { code := "STOR-007"
    severity := Severity.HIGH
    confidence := Confidence.HIGH_CONFIDENCE
    title := "Storage gap insufficient"
    description := "Gap shrank by " ++ Nat.repr (oldN - newN) ++
      " slots but only " ++ Nat.repr totalNewVarsAdded ++
      " new variable(s) added. Expected " ++ Nat.repr newN ++ " + " ++
      Nat.repr totalNewVarsAdded ++ " = " ++
      Nat.repr (newN + totalNewVarsAdded) ++ " >= " ++ Nat.repr oldN ++ "."
    details := [("oldGapSize", Json.num oldN), ("newGapSize", Json.num newN),
      ("newVarsAdded", Json.num totalNewVarsAdded)]
    location := some { slot := some matchingNewGap.slot, contract := some oldGap.contractOrigin }
    remediation := "The gap must decrease by exactly the number of new storage slots used. Check that N_new + V_new == N_old." }

/-- The `${slot}:${offset}` key of the slot-offset maps; the string key
encodes exactly the pair, so it is modelled as the pair. -/
def soKey (e : CanonicalStorageEntry) : Nat × Nat := (e.slot, e.offset)

/-- Processing of one old gap in `validateGaps`: match a new gap by slot;
no match emits STOR-008, an insufficient match emits STOR-007. -/
def gapStep (newGaps : List CanonicalStorageEntry) (totalNewVarsAdded : Nat)
    (oldGap : CanonicalStorageEntry) : List Finding :=
  let oldN := extractArraySize oldGap.canonicalType
  match newGaps.find? (fun g => decide (g.slot = oldGap.slot)) with
  | none => [stor008Finding oldGap oldN]
  | some matchingNewGap =>
      let newN := extractArraySize matchingNewGap.canonicalType
      if newN + totalNewVarsAdded < oldN then
        [stor007Finding oldGap matchingNewGap oldN newN totalNewVarsAdded]
      else []

/-- Gap validation (storage-layout.ts: `validateGaps`): gaps are matched by
slot, and the insufficiency check uses the total count of appended new
variables, regardless of their position relative to the gap. -/
def validateGaps (oldLayout newLayout : List CanonicalStorageEntry)
    (totalNewVarsAdded : Nat) : List Finding :=
  let oldGaps := oldLayout.filter isGapEntry
  let newGaps := newLayout.filter isGapEntry
  oldGaps.flatMap (gapStep newGaps totalNewVarsAdded)

/-- The processing of one old-map entry in the primary comparison loop of
`analyzeStorageLayout` (STOR-001 / STOR-003 / STOR-004 / STOR-010). -/
def storMainStep (newLayout : List CanonicalStorageEntry)
    (oldEntry : CanonicalStorageEntry) : List Finding :=
  if isGapEntry oldEntry then []
  else if !jsMapHas soKey newLayout (soKey oldEntry) then
    let appearsAtHigherSlot := newLayout.any (fun e =>
      e.label == oldEntry.label && decide (e.slot > oldEntry.slot))
    if appearsAtHigherSlot then [] else [stor001Finding oldEntry]
  else
    match jsMapGet soKey newLayout (soKey oldEntry) with
    | none => []
    | some newEntry =>
        if oldEntry.length ≠ newEntry.length then
          [stor003Finding oldEntry newEntry]
        else if oldEntry.canonicalType ≠ newEntry.canonicalType then
          [stor004Finding oldEntry newEntry]
        else if oldEntry.label ≠ newEntry.label then
          [stor010Finding oldEntry newEntry]
        else []

/-- The STOR-001/003/004/010 findings of the primary comparison loop. -/
def storMainFindings (oldLayout newLayout : List CanonicalStorageEntry) :
    List Finding :=
  (jsMapEntries soKey oldLayout).flatMap (storMainStep newLayout)

/-- `Math.max(...slots, 0)` over the old non-gap entries. -/
def maxOldSlotOf (oldLayout : List CanonicalStorageEntry) : Nat :=
  ((oldLayout.filter (fun e => !isGapEntry e)).map (fun e => e.slot)).foldl
    max 0

/-- The STOR-002 findings: new non-gap entries with no old counterpart at a
slot within the old layout range. -/
def stor002Findings (oldLayout newLayout : List CanonicalStorageEntry) :
    List Finding :=
  newLayout.flatMap (fun newEntry =>
    if isGapEntry newEntry then []
    else if !jsMapHas soKey oldLayout (soKey newEntry) &&
        decide (newEntry.slot ≤ maxOldSlotOf oldLayout) then
      [stor002Finding newEntry]
    else [])

/-- The appended new variables (`newVars` in storage-layout.ts): new non-gap
entries with no counterpart in the old layout, beyond the last old non-gap
slot. -/
def storNewVars (oldLayout newLayout : List CanonicalStorageEntry) :
    List CanonicalStorageEntry :=
  newLayout.filter (fun e =>
    !isGapEntry e && !jsMapHas soKey oldLayout (soKey e) &&
      decide (e.slot > maxOldSlotOf oldLayout))

/-- The number of appended new variables used by the gap check
(`newVars.length` in storage-layout.ts). -/
def appendedNewVarCount (oldLayout newLayout : List CanonicalStorageEntry) :
    Nat :=
  (storNewVars oldLayout newLayout).length

/-- The storage-layout analyzer (storage-layout.ts: `analyzeStorageLayout`). -/
def analyzeStorageLayout (oldLayout newLayout : List CanonicalStorageEntry) :
    AnalyzerResult :=
  let newVars := storNewVars oldLayout newLayout
  let stor009Findings : List Finding :=
    if newVars.isEmpty then [] else [stor009Finding newVars]
  let gapFindings : List Finding :=
    validateGaps oldLayout newLayout newVars.length
  AnalyzerResult.completed
    (storMainFindings oldLayout newLayout ++
      stor002Findings oldLayout newLayout ++ stor009Findings ++ gapFindings)

/-! Interface differ (engine/src/analyzers/abi-diff.ts). -/

/-- A normalized ABI function (resolver/abi-extractor.ts: `NormalizedFunction`). -/
structure AbiFunction where
  selector : String
  signature : String
  name : String
  inputs : List String
  outputs : List String
  stateMutability : String
  deriving DecidableEq, Repr

/-- A normalized ABI event (resolver/abi-extractor.ts: `NormalizedEvent`);
the `indexedInputs` field is unused by the differ and omitted. -/
structure AbiEvent where
  topic0 : String
  signature : String
  name : String
  inputs : List String
  deriving DecidableEq, Repr

/-- A normalized ABI (resolver/abi-extractor.ts: `ExtractedAbi`). -/
structure ExtractedAbi where
  functions : List AbiFunction
  events : List AbiEvent
  deriving DecidableEq, Repr

/-- The ABI-003 finding for a signature change. -/
def abi003Finding (fn sameNameInNew : AbiFunction) : Finding :=
  { code := "ABI-003"
    severity := Severity.HIGH
    confidence := Confidence.HIGH_CONFIDENCE
    title := "Function signature changed"
    description := "Function \"" ++ fn.name ++ "\" changed signature: (" ++
      String.intercalate "," fn.inputs ++ ") → (" ++
      String.intercalate "," sameNameInNew.inputs ++ ")."
    details := [("oldSignature", Json.str fn.signature),
      ("newSignature", Json.str sameNameInNew.signature)]
    location := some { function := some fn.name }
    remediation := "Changing function parameters breaks all callers. Add a new function name instead of changing the signature." }

/-- The ABI-001 finding for a removed selector. -/
def abi001Finding (selector : String) (fn : AbiFunction) : Finding :=
  { code := "ABI-001"
    severity := Severity.HIGH
    confidence := Confidence.HIGH_CONFIDENCE
    title := "Function selector removed"
    description := "Function \"" ++ fn.name ++ "\" (selector " ++ selector ++
      ") was removed from the new implementation."
    details := [("selector", Json.str selector),
      ("signature", Json.str fn.signature)]
    location := some { function := some fn.name }
    remediation := "Removing a function breaks all callers. Keep the function or ensure no external contracts depend on it." }

/-- The ABI-002 finding for a selector collision: `function1` is the signature
stored for the first occurrence of the selector, `function2` the later one. -/
def abi002Finding (selector sig1 sig2 : String) : Finding :=
  { code := "ABI-002"
    severity := Severity.CRITICAL
    confidence := Confidence.HIGH_CONFIDENCE
    title := "Function selector collision"
    description := "Two functions in the new implementation share selector " ++
      selector ++ ": \"" ++ sig1 ++ "\" and \"" ++ sig2 ++ "\"."
    details := [("selector", Json.str selector),
      ("function1", Json.str sig1), ("function2", Json.str sig2)]
    remediation := "Rename one of the functions to eliminate the 4-byte selector collision." }

/-- The ABI-004 finding for a return-type change. -/
def abi004Finding (selector : String) (oldFn newFn : AbiFunction) : Finding :=
  { code := "ABI-004"
    severity := Severity.MEDIUM
    confidence := Confidence.HIGH_CONFIDENCE
    title := "Return type changed"
    description := "Function \"" ++ oldFn.name ++ "\" return type changed from (" ++
      String.intercalate "," oldFn.outputs ++ ") to (" ++
      String.intercalate "," newFn.outputs ++ ")."
    details := [("selector", Json.str selector),
      ("oldOutputs", Json.arr (oldFn.outputs.map Json.str)),
      ("newOutputs", Json.arr (newFn.outputs.map Json.str))]
    location := some { function := some oldFn.name }
    remediation := "Callers that decode return values will break. Review all callers of this function." }

/-- The ABI-005 finding for an added function. -/
def abi005Finding (selector : String) (fn : AbiFunction) : Finding :=
  { code := "ABI-005"
    severity := Severity.LOW
    confidence := Confidence.HIGH_CONFIDENCE
    title := "New function added"
    description := "Function \"" ++ fn.name ++ "\" (selector " ++ selector ++
      ") was added in the new implementation."
    details := [("selector", Json.str selector),
      ("signature", Json.str fn.signature)]
    location := some { function := some fn.name }
    remediation := "New functions are generally safe. Ensure they have appropriate access control if they modify state." }

/-- The ABI-006 finding for a changed event signature. -/
def abi006Finding (oldEvent sameNameInNew : AbiEvent) : Finding :=
  { code := "ABI-006"
    severity := Severity.HIGH
    confidence := Confidence.HIGH_CONFIDENCE
    title := "Event signature changed"
    description := "Event \"" ++ oldEvent.name ++
      "\" signature changed. Off-chain listeners using the old topic will miss events."
    details := [("oldSignature", Json.str oldEvent.signature),
      ("newSignature", Json.str sameNameInNew.signature)]
    remediation := "Update all off-chain indexers to use the new event signature." }

/-- The ABI-007 finding for a removed event. -/
def abi007Finding (topic : String) (oldEvent : AbiEvent) : Finding :=
  { code := "ABI-007"
    severity := Severity.MEDIUM
    confidence := Confidence.HIGH_CONFIDENCE
    title := "Event removed"
    description := "Event \"" ++ oldEvent.name ++ "\" (topic " ++ topic ++
      ") was removed. Off-chain listeners will miss these events."
    details := [("topic", Json.str topic),
      ("signature", Json.str oldEvent.signature)]
    remediation := "If off-chain systems index this event, removing it breaks their data pipelines." }

/-- The ABI-002 collision scan (abi-diff.ts lines 47-69): walk the new
functions keeping an association list from selector to the first signature
seen; a function whose selector is already present emits one finding
referencing that first signature. -/
def abi002Scan : List AbiFunction → List (String × String) → List Finding
  | [], _ => []
  | fn :: rest, newSelectors =>
      match newSelectors.lookup fn.selector with
      | some sig1 =>
          abi002Finding fn.selector sig1 fn.signature :: abi002Scan rest newSelectors
      | none => abi002Scan rest (newSelectors ++ [(fn.selector, fn.signature)])

/-- Selector of an ABI function, the key of the differ's function maps. -/
def fnSelector (f : AbiFunction) : String := f.selector

/-- Topic of an ABI event, the key of the differ's event maps. -/
def evTopic (e : AbiEvent) : String := e.topic0

/-- The ABI-001 / ABI-003 loop of the differ: old selectors absent from the
new ABI. -/
def abiRemovedFindings (oldAbi newAbi : ExtractedAbi) : List Finding :=
  (jsMapEntries fnSelector oldAbi.functions).flatMap (fun fn =>
    if !jsMapHas fnSelector newAbi.functions fn.selector then
      match newAbi.functions.find? (fun f => f.name == fn.name) with
      | some sameNameInNew => [abi003Finding fn sameNameInNew]
      | none => [abi001Finding fn.selector fn]
    else [])

/-- The ABI-004 loop of the differ: selectors kept with changed outputs. -/
def abiReturnTypeFindings (oldAbi newAbi : ExtractedAbi) : List Finding :=
  (jsMapEntries fnSelector oldAbi.functions).flatMap (fun oldFn =>
    match jsMapGet fnSelector newAbi.functions oldFn.selector with
    | some newFn =>
        if oldFn.outputs ≠ newFn.outputs then
          [abi004Finding oldFn.selector oldFn newFn]
        else []
    | none => [])

/-- The ABI-005 loop of the differ: new selectors absent from the old ABI. -/
def abiAddedFindings (oldAbi newAbi : ExtractedAbi) : List Finding :=
  (jsMapEntries fnSelector newAbi.functions).flatMap (fun fn =>
    if !jsMapHas fnSelector oldAbi.functions fn.selector then
      [abi005Finding fn.selector fn]
    else [])

/-- The ABI-006 / ABI-007 loop of the differ: old event topics absent from
the new ABI. -/
def abiEventFindings (oldAbi newAbi : ExtractedAbi) : List Finding :=
  (jsMapEntries evTopic oldAbi.events).flatMap (fun oldEvent =>
    if !jsMapHas evTopic newAbi.events oldEvent.topic0 then
      match newAbi.events.find? (fun e => e.name == oldEvent.name) with
      | some sameNameInNew => [abi006Finding oldEvent sameNameInNew]
      | none => [abi007Finding oldEvent.topic0 oldEvent]
    else [])

/-- The interface differ (abi-diff.ts: `analyzeAbiDiff`). -/
def analyzeAbiDiff (oldAbi newAbi : ExtractedAbi) : AnalyzerResult :=
  AnalyzerResult.completed
    (abiRemovedFindings oldAbi newAbi ++ abi002Scan newAbi.functions [] ++
      abiReturnTypeFindings oldAbi newAbi ++ abiAddedFindings oldAbi newAbi ++
      abiEventFindings oldAbi newAbi)

/-- The string stored under key `k` of the `details` record of a finding. -/
def detailStr (f : Finding) (k : String) : Option String :=
  (f.details.lookup k).bind (fun j =>
    match j with
    | Json.str s => some s
    | _ => none)

/-! UUPS upgrade-authorization checker (engine/src/analyzers/uups-safety.ts).
The artifact loading and AST walk are modelled by their outcome: `none`
when the build artifact file is missing, `some none` when no
FunctionDefinition named `_authorizeUpgrade` occurs in the artifact, and
`some (some fn)` for the first one found.  A function body is modelled by
the list of its serialized statement texts; the `JSON.stringify` substring
checks can only hit inside one serialized statement. -/

/-- A function body (`Block` node): the serialized texts of its statements. -/
structure BodyNode where
  statements : List String
  deriving DecidableEq, Repr

/-- The projection of an AST `FunctionDefinition` consumed by
`hasAccessControl`: the modifier-invocation names and the optional body. -/
structure FunctionNode where
  modifiers : List String
  body : Option BodyNode
  deriving DecidableEq, Repr

/-- The modifier keywords of uups-safety.ts: `accessModifiers`. -/
def accessModifiers : List String :=
  ["onlyOwner", "onlyRole", "onlyAdmin", "auth", "authorized", "guard"]

/-- Access-control detection (uups-safety.ts: `hasAccessControl`): a modifier
whose lowercased name contains one of the `accessModifiers` keywords
(lowercased), or a body whose serialization contains `msg.sender` or
`_msgSender`. -/
def hasAccessControl (fn : FunctionNode) : Bool :=
  if !fn.modifiers.isEmpty &&
      fn.modifiers.any (fun m =>
        accessModifiers.any (fun am =>
          strContainsSub (strToLower m) (strToLower am))) then
    true
  else
    match fn.body with
    | none => false
    | some b =>
        b.statements.any (fun st =>
          strContainsSub st "msg.sender" || strContainsSub st "_msgSender")

/-- The UUPS-001 finding. -/
def uups001Finding (newContractName : String) : Finding :=
  { code := "UUPS-001"
    severity := Severity.CRITICAL
    confidence := Confidence.HIGH_CONFIDENCE
    title := "_authorizeUpgrade not found"
    description := "The new implementation does not define or inherit _authorizeUpgrade. UUPS proxies require this function to authorize upgrades."
    details := [("contractName", Json.str newContractName)]
    remediation := "Add `function _authorizeUpgrade(address) internal override onlyOwner \x7b\x7d` to the contract." }

/-- The UUPS-002 finding. -/
def uups002Finding (newContractName : String) : Finding :=
  { code := "UUPS-002"
    severity := Severity.CRITICAL
    confidence := Confidence.HIGH_CONFIDENCE
    title := "_authorizeUpgrade has empty body"
    description := "The _authorizeUpgrade function exists but has an empty body. Anyone can call upgradeTo() to upgrade the proxy."
    details := [("contractName", Json.str newContractName)]
    remediation := "Add access control: `function _authorizeUpgrade(address) internal override onlyOwner \x7b\x7d`" }

/-- The UUPS-003 finding. -/
def uups003Finding (newContractName : String) : Finding :=
  { code := "UUPS-003"
    severity := Severity.CRITICAL
    confidence := Confidence.HIGH_CONFIDENCE
    title := "_authorizeUpgrade has no access control"
    description := "The _authorizeUpgrade function has a body but no detectable access control modifier or msg.sender check."
    details := [("contractName", Json.str newContractName)]
    remediation := "Add `onlyOwner` or equivalent access control modifier to _authorizeUpgrade." }

/-- The UUPS checker (uups-safety.ts: `analyzeUupsSafety`), with the artifact
lookup modelled by its outcome (see the section comment). -/
def analyzeUupsSafety (artifact : Option (Option FunctionNode))
    (newContractName : String) : AnalyzerResult :=
  match artifact with
  | none =>
      AnalyzerResult.errored ("Build artifact not found for " ++
        newContractName ++ ". Run forge build first.")
  | some fnNodeOpt =>
      match fnNodeOpt with
      | none => AnalyzerResult.completed [uups001Finding newContractName]
      | some fn =>
          match fn.body with
          | none => AnalyzerResult.completed [uups002Finding newContractName]
          | some body =>
              if body.statements.length = 0 then
                AnalyzerResult.completed [uups002Finding newContractName]
              else if !hasAccessControl fn then
                AnalyzerResult.completed [uups003Finding newContractName]
              else
                AnalyzerResult.completed []

/-- Modelled from the spec (section 4.4.1): the access-control-signal keyword
set as the specification words it.  Written for comparison against the
keyword set actually used by `hasAccessControl`. -/
def specAccessSignalKeywords : List String :=
  ["only", "auth", "authorized", "owner", "admin", "role", "guard"]

/-- Modelled from the spec (section 4.4.1): a function carries an
access-control signal when some modifier whose lowercased name contains one
of the spec keywords is present, or the body references the message sender.
Written for comparison against `hasAccessControl`. -/
def specAccessSignal (fn : FunctionNode) : Bool :=
  fn.modifiers.any (fun m =>
    specAccessSignalKeywords.any (fun kw => strContainsSub (strToLower m) kw)) ||
  (match fn.body with
   | none => false
   | some b =>
       b.statements.any (fun st =>
         strContainsSub st "msg.sender" || strContainsSub st "_msgSender"))

/-! Proxy classifier (engine/src/analyzers/proxy-detection.ts: `detectProxy`)
and the transparent-safety analyzer
(engine/src/analyzers/transparent-safety.ts).  The three storage-slot reads
and the two bytecode reads are modelled as an explicit record of the values
the RPC endpoint returned. -/

/-- A proxy pattern (types.ts: `ProxyType`). -/
inductive ProxyType where
  | transparent
  | uups
  | unknown
  deriving DecidableEq, Repr

/-- Proxy detection result (types.ts: `ProxyInfo`). -/
structure ProxyInfo where
  type : ProxyType
  proxyAddress : String
  implementationAddress : String
  adminAddress : Option String := none
  deriving DecidableEq, Repr

/-- The EIP-1967 implementation slot (utils/eip1967.ts). -/
def IMPLEMENTATION_SLOT : String :=
  "0x360894a13ba1a3210667c828492db98dca3e2076cc3735a920a3ca505d382bbc"

/-- The EIP-1967 admin slot (utils/eip1967.ts). -/
def ADMIN_SLOT : String :=
  "0xb53127684a568b3173ae13b9f8a6016e243e63b6e8ee1178d6a717850b5d6103"

/-- The EIP-1967 beacon slot (utils/eip1967.ts). -/
def BEACON_SLOT : String :=
  "0xa3f0ad74e5423aebfd80d3ef4346578335a9a72aeaee59ff6cb3582b35133d50"

/-- The `proxiableUUID()` selector used for UUPS detection (utils/eip1967.ts). -/
def PROXIABLE_UUID_SELECTOR : String := "0x52d1902d"

/-- The zero address (proxy-detection.ts: `ZERO_ADDRESS`). -/
def ZERO_ADDRESS : String := "0x0000000000000000000000000000000000000000"

/-- Model of JavaScript `str.slice(-n)`: the last `n` characters
(the whole string when it is shorter). -/
def jsSliceLast (s : String) (n : Nat) : String :=
  if s.length ≤ n then s else s.drop (s.length - n)

/-- Address encoded in a 32-byte storage-slot value: the last 20 bytes
(utils/eip1967.ts: `slotToAddress`). -/
def slotToAddress (slotValue : String) : String :=
  "0x" ++ jsSliceLast slotValue 40

/-- The slot values and code reads `detectProxy` obtains from the chain. -/
structure ChainReads where
  implSlotValue : String
  adminSlotValue : String
  beaconSlotValue : String
  implCode : Option String
  proxyCode : Option String
  deriving DecidableEq, Repr

/-- The PROXY-001 finding (beacon pattern). -/
def proxy001Finding (beaconAddress : String) : Finding :=
  { code := "PROXY-001"
    severity := Severity.CRITICAL
    confidence := Confidence.HIGH_CONFIDENCE
    title := "Beacon proxy detected — not supported"
    description := "This proxy uses the beacon pattern (EIP-1967 beacon slot is set). Only Transparent and UUPS proxies are supported."
    details := [("beaconAddress", Json.str beaconAddress)]
    remediation := "Use a supported proxy pattern (Transparent or UUPS) or wait for beacon proxy support in a future version." }

/-- The PROXY-002 finding (zero implementation). -/
def proxy002Finding (implSlot implAddress : String) : Finding :=
  { code := "PROXY-002"
    severity := Severity.CRITICAL
    confidence := Confidence.HIGH_CONFIDENCE
    title := "No implementation set (zero address)"
    description := "The EIP-1967 implementation slot contains the zero address."
    details := [("implSlot", Json.str implSlot),
      ("implAddress", Json.str implAddress)]
    remediation := "Verify the proxy address is correct and has been initialized." }

/-- The PROXY-003 finding (implementation without code). -/
def proxy003Finding (implAddress : String) : Finding :=
  { code := "PROXY-003"
    severity := Severity.CRITICAL
    confidence := Confidence.HIGH_CONFIDENCE
    title := "Implementation address has no deployed code"
    description := "The current implementation address (" ++ implAddress ++
      ") has no bytecode."
    details := [("implAddress", Json.str implAddress)]
    remediation := "Verify the proxy was deployed on the correct network and the RPC URL is for the right chain." }

/-- The PROXY-005 finding (unrecognized pattern). -/
def proxy005Finding (implAddress adminAddress : String) : Finding :=
  { code := "PROXY-005"
    severity := Severity.CRITICAL
    confidence := Confidence.HIGH_CONFIDENCE
    title := "Unrecognized proxy pattern"
    description := "No EIP-1967 slots match a known proxy pattern."
    details := [("implAddress", Json.str implAddress),
      ("adminAddress", Json.str adminAddress)]
    remediation := "Verify the address is a Transparent or UUPS proxy contract." }

/-- The admin-slot hash constant used by the ambiguity fallback
(proxy-detection.ts: `adminSlotHash`). -/
def adminSlotHash : String :=
  "b53127684a568b3173ae13b9f8a6016e243e63b6e8ee1178d6a717850b5d6103"

/-- The proxy classifier (proxy-detection.ts: `detectProxy`). -/
def detectProxy (c : ChainReads) (proxyAddress : String) :
    Option ProxyInfo × AnalyzerResult :=
  let implAddress := slotToAddress c.implSlotValue
  let adminAddress := slotToAddress c.adminSlotValue
  let beaconAddress := slotToAddress c.beaconSlotValue
  if beaconAddress ≠ ZERO_ADDRESS then
    (none, AnalyzerResult.completed [proxy001Finding beaconAddress])
  else if implAddress = ZERO_ADDRESS then
    (none, AnalyzerResult.completed [proxy002Finding c.implSlotValue implAddress])
  else
    match c.implCode with
    | none => (none, AnalyzerResult.completed [proxy003Finding implAddress])
    | some implCode =>
        if implCode = "0x" then
          (none, AnalyzerResult.completed [proxy003Finding implAddress])
        else
          let isUUPS := strContainsSub implCode (PROXIABLE_UUID_SELECTOR.drop 2)
          let proxyType : ProxyType :=
            if isUUPS then ProxyType.uups
            else if adminAddress ≠ ZERO_ADDRESS then ProxyType.transparent
            else
              match c.proxyCode with
              | some proxyCode =>
                  if strContainsSub proxyCode adminSlotHash then
                    ProxyType.transparent
                  else ProxyType.unknown
              | none => ProxyType.unknown
          if proxyType = ProxyType.unknown then
            (none,
             AnalyzerResult.completed [proxy005Finding implAddress adminAddress])
          else
            (some { type := proxyType, proxyAddress := proxyAddress, implementationAddress := implAddress, adminAddress := if proxyType = ProxyType.transparent then some adminAddress else none },
             AnalyzerResult.completed [])

/-- Known proxy admin selectors (transparent-safety.ts: `ADMIN_SELECTORS`). -/
def ADMIN_SELECTORS : List (String × String) :=
  [("0x3659cfe6", "upgradeTo(address)"),
   ("0x4f1ef286", "upgradeToAndCall(address,bytes)"),
   ("0x8f283970", "changeAdmin(address)"),
   ("0xf851a440", "admin()"),
   ("0x5c60da1b", "implementation()")]

/-- The TPROXY-001 finding (zero admin). -/
def tproxy001Finding (adminAddress : Option String) : Finding :=
  { code := "TPROXY-001"
    severity := Severity.CRITICAL
    confidence := Confidence.HIGH_CONFIDENCE
    title := "Admin slot is zero address"
    description := "The proxy admin slot contains the zero address. No one can upgrade this proxy."
    details := [("adminAddress",
      match adminAddress with
      | some a => Json.str a
      | none => Json.jnull)]
    remediation := "Verify the proxy was deployed correctly with a valid admin address." }

/-- The TPROXY-002 finding (upgrade functions on the implementation). -/
def tproxy002Finding : Finding :=
  { code := "TPROXY-002"
    severity := Severity.HIGH
    confidence := Confidence.HIGH_CONFIDENCE
    title := "Implementation contains upgrade functions (pattern conflict)"
    description := "The new implementation defines upgradeTo or upgradeToAndCall. In a Transparent proxy, these should only exist in the proxy itself, not the implementation."
    details := []
    remediation := "Remove upgradeTo/upgradeToAndCall from the implementation contract. These are proxy-level functions." }

/-- The TPROXY-004 finding (selector collision with an admin function). -/
def tproxy004Finding (fn : AbiFunction) (adminFunction : String) : Finding :=
  { code := "TPROXY-004"
    severity := Severity.HIGH
    confidence := Confidence.HIGH_CONFIDENCE
    title := "Selector collision with proxy admin function"
    description := "Implementation function \"" ++ fn.name ++ "\" (selector " ++
      fn.selector ++ ") collides with proxy admin function \"" ++
      adminFunction ++ "\". Admin calls will be intercepted by the proxy."
    details := [("selector", Json.str fn.selector),
      ("implFunction", Json.str fn.name),
      ("adminFunction", Json.str adminFunction)]
    location := some { function := some fn.name }
    remediation := "Rename the implementation function to avoid the 4-byte selector collision." }

/-- The transparent-proxy checker
(transparent-safety.ts: `analyzeTransparentSafety`). -/
def analyzeTransparentSafety (proxyInfo : ProxyInfo) (newAbi : ExtractedAbi) :
    AnalyzerResult :=
  let adminAddress := proxyInfo.adminAddress
  let adminFalsyOrZero : Bool :=
    match adminAddress with
    | none => true
    | some a => a == "" || a == ZERO_ADDRESS
  let t1 : List Finding :=
    if adminFalsyOrZero then [tproxy001Finding adminAddress] else []
  let t2 : List Finding :=
    if newAbi.functions.any (fun f =>
        f.name == "upgradeTo" || f.name == "upgradeToAndCall") then
      [tproxy002Finding]
    else []
  let t4 : List Finding :=
    newAbi.functions.flatMap (fun fn =>
      match ADMIN_SELECTORS.lookup fn.selector with
      | some adminFunction => [tproxy004Finding fn adminFunction]
      | none => [])
  AnalyzerResult.completed (t1 ++ t2 ++ t4)

/-! Markdown report generator (engine/src/report/markdown-report.ts:
`generateMarkdownReport`). -/

/-- One escaped character of a JSON string literal. -/
def jsonEscapeChar (c : Char) : List Char :=
  if c = '"' then ['\\', '"']
  else if c = '\\' then ['\\', '\\']
  else [c]

/-- A JSON string literal. -/
def jsonQuote (s : String) : String :=
  "\"" ++ String.mk (s.toList.flatMap jsonEscapeChar) ++ "\""

/-- Indentation of `lvl` levels of two spaces, as produced by
`JSON.stringify(v, null, 2)`. -/
def jsonIndent (lvl : Nat) : String := String.mk (List.replicate (lvl * 2) ' ')

mutual

/-- Model of `JSON.stringify(v, null, 2)` at nesting level `lvl`. -/
def jsonStringify (v : Json) (lvl : Nat) : String :=
  match v with
  | Json.str s => jsonQuote s
  | Json.num n => Nat.repr n
  | Json.jnull => "null"
  | Json.arr xs =>
      match xs with
      | [] => "[]"
      | _ =>
          "[\n" ++
            String.intercalate ",\n"
              (jsonStringifyItems xs (lvl + 1)) ++
            "\n" ++ jsonIndent lvl ++ "]"
  | Json.obj fields =>
      match fields with
      | [] => "\x7b\x7d"
      | _ =>
          "\x7b\n" ++
            String.intercalate ",\n"
              (jsonStringifyFields fields (lvl + 1)) ++
            "\n" ++ jsonIndent lvl ++ "\x7d"

/-- The rendered items of a JSON array. -/
def jsonStringifyItems (xs : List Json) (lvl : Nat) : List String :=
  match xs with
  | [] => []
  | x :: rest => (jsonIndent lvl ++ jsonStringify x lvl) :: jsonStringifyItems rest lvl

/-- The rendered fields of a JSON object. -/
def jsonStringifyFields (fields : List (String × Json)) (lvl : Nat) :
    List String :=
  match fields with
  | [] => []
  | (k, v) :: rest =>
      (jsonIndent lvl ++ jsonQuote k ++ ": " ++ jsonStringify v lvl) ::
        jsonStringifyFields rest lvl

end

/-- Rendering of a finding's `details` record
(`JSON.stringify(finding.details, null, 2)`). -/
def jsonStringifyTop (fields : List (String × Json)) : String :=
  jsonStringify (Json.obj fields) 0

/-- Severity cell text (markdown-report.ts: `SEVERITY_EMOJI`). -/
def severityEmoji : Severity → String
  | Severity.CRITICAL => "🔴 CRITICAL"
  | Severity.HIGH => "🟠 HIGH"
  | Severity.MEDIUM => "🟡 MEDIUM"
  | Severity.LOW => "🟢 LOW"

/-- Report header line (markdown-report.ts: `VERDICT_HEADER`; every verdict
has an entry, so the fallback template is unreachable). -/
def verdictHeader : Verdict → String
  | Verdict.SAFE => "# ✅ SAFE — Upgrade Appears Safe"
  | Verdict.UNSAFE => "# 🚨 UNSAFE — Do Not Upgrade"
  | Verdict.REVIEW_REQUIRED => "# ⚠️ REVIEW REQUIRED — Manual Review Needed"
  | Verdict.INCOMPLETE => "# ❓ INCOMPLETE — Analysis Could Not Complete"

/-- Status icon of the analyzer table. -/
def statusIcon : AnalyzerStatus → String
  | AnalyzerStatus.completed => "✅"
  | AnalyzerStatus.skipped => "⏭"
  | AnalyzerStatus.errored => "❌"

/-- Status text of the analyzer table. -/
def statusText : AnalyzerStatus → String
  | AnalyzerStatus.completed => "completed"
  | AnalyzerStatus.skipped => "skipped"
  | AnalyzerStatus.errored => "errored"

/-- The metadata record built by `UpgradoorEngine.buildMetadata`. -/
structure ReportMetadata where
  proxyAddress : String
  newImplementationPath : String
  oldImplementationPath : String
  timestamp : String
  deriving DecidableEq, Repr

/-- The location row of one critical-or-high finding: the non-null parts
joined by a bar separator. -/
def locationParts (loc : Location) : List String :=
  ([(match loc.contract with
     | some c => if c == "" then none else some ("Contract: `" ++ c ++ "`")
     | none => none),
    (match loc.function with
     | some fname =>
        if fname == "" then none else some ("Function: `" ++ fname ++ "`")
     | none => none),
    loc.slot.map (fun s => "Slot: " ++ Nat.repr s),
    loc.offset.map (fun o => "Offset: " ++ Nat.repr o),
    (match loc.file with
     | some fl =>
        if fl == "" then none
        else some ("File: `" ++ fl ++ ":" ++
          (match loc.line with
           | some n => Nat.repr n
           | none => "") ++ "`")
     | none => none)]).filterMap id

/-- The detail block of one critical-or-high finding. -/
def criticalHighBlock (finding : Finding) : List String :=
  ["### " ++ severityEmoji finding.severity ++ " [" ++ finding.code ++ "] " ++
     finding.title,
   "", finding.description, ""] ++
  (match finding.location with
   | some loc =>
       let parts := locationParts loc
       if parts.isEmpty then []
       else ["**Location:** " ++ String.intercalate " | " parts, ""]
   | none => []) ++
  (if finding.details.isEmpty then []
   else ["**Details:**", "```json", jsonStringifyTop finding.details, "```", ""]) ++
  ["**Remediation:** " ++ finding.remediation, "", "---", ""]

/-- The markdown report (markdown-report.ts: `generateMarkdownReport`):
the pushed lines joined by newlines. -/
def generateMarkdownReport (aggregated : AggregatedResult)
    (proxyInfo : Option ProxyInfo) (metadata : ReportMetadata) : String :=
  let headerLines : List String :=
    [verdictHeader aggregated.verdict, "",
     "**Analyzed:** " ++ metadata.timestamp,
     "**Proxy:** `" ++ metadata.proxyAddress ++ "`"] ++
    (match proxyInfo with
     | some info =>
         ["**Proxy Type:** " ++
            (if info.type == ProxyType.uups then "UUPS" else "Transparent"),
          "**Current Implementation:** `" ++ info.implementationAddress ++ "`"] ++
         (match info.adminAddress with
          | some admin =>
              if admin == "" then [] else ["**Admin:** `" ++ admin ++ "`"]
          | none => [])
     | none => []) ++
    ["**Old Implementation:** `" ++ metadata.oldImplementationPath ++ "`",
     "**New Implementation:** `" ++ metadata.newImplementationPath ++ "`",
     ""]
  let severityLines : List String :=
    ["## Severity Summary", "", "| Severity | Count |", "| -------- | ----- |"] ++
    ([Severity.CRITICAL, Severity.HIGH, Severity.MEDIUM, Severity.LOW].map
      (fun sev =>
        "| " ++ severityEmoji sev ++ " | " ++
          Nat.repr (aggregated.findings.countP (fun f => f.severity == sev)) ++
          " |")) ++
    [""]
  let statusLines : List String :=
    ["## Analyzer Status", "", "| Analyzer | Status |", "| -------- | ------ |"] ++
    (aggregated.analyzerStatus.map (fun p =>
      "| " ++ p.1 ++ " | " ++ statusIcon p.2 ++ " " ++ statusText p.2 ++ " |")) ++
    [""]
  let criticalAndHigh := aggregated.findings.filter (fun f =>
    f.severity == Severity.CRITICAL || f.severity == Severity.HIGH)
  let criticalHighLines : List String :=
    if criticalAndHigh.isEmpty then []
    else ["## Critical & High Findings", ""] ++
      criticalAndHigh.flatMap criticalHighBlock
  let mediumAndLow := aggregated.findings.filter (fun f =>
    f.severity == Severity.MEDIUM || f.severity == Severity.LOW)
  let mediumLowLines : List String :=
    if mediumAndLow.isEmpty then []
    else
      ["## Medium & Low Findings", "", "| Code | Severity | Title |",
       "| ---- | -------- | ----- |"] ++
      (mediumAndLow.map (fun f =>
        "| " ++ f.code ++ " | " ++ severityEmoji f.severity ++ " | " ++
          f.title ++ " |")) ++
      [""]
  let noFindingLines : List String :=
    if aggregated.findings.isEmpty then
      ["## No findings.", "",
       "The upgrade appears safe. All analyzers completed with no issues.", ""]
    else []
  let footerLines : List String :=
    ["---", "*Generated by decipher-solidity-upgradoor v0*"]
  String.intercalate "\n"
    (headerLines ++ severityLines ++ statusLines ++ criticalHighLines ++
      mediumLowLines ++ noFindingLines ++ footerLines)

/-! Engine orchestrator (engine/src/engine.ts: `UpgradoorEngine.analyze`).
The fan-out of step 3 awaits all five analyzer promises with
`Promise.allSettled` before any result is recorded; each analyzer is a pure
function of the resolved artifacts, so the five settled outcomes (after
`settledToResult`, which turns a rejection into an `errored` result) are
modelled as explicit inputs.  The wall clock read by `buildMetadata`
(`new Date().toISOString()`) is modelled as the explicit input `now`. -/

/-- The engine input (types.ts: `EngineInput`). -/
structure EngineInput where
  proxyAddress : String
  oldImplementationPath : String
  newImplementationPath : String
  rpcUrl : String
  deriving DecidableEq, Repr

/-- The engine result (types.ts: `EngineResult`). -/
structure EngineResultModel where
  verdict : Verdict
  highestSeverity : Option Severity
  findings : List Finding
  reportMarkdown : String
  analyzerStatus : List (String × AnalyzerStatus)

/-- The metadata of a run (engine.ts: `UpgradoorEngine.buildMetadata`);
`timestamp` is the ISO rendering of the wall clock at the moment of the
call, passed in as `now`. -/
def buildMetadata (input : EngineInput) (now : String) : ReportMetadata :=
  { proxyAddress := input.proxyAddress
    newImplementationPath := input.newImplementationPath
    oldImplementationPath := input.oldImplementationPath
    timestamp := now }

/-- The blocking proxy finding codes (engine.ts: `blockingProxyCodes`). -/
def blockingProxyCodes : List String :=
  ["PROXY-001", "PROXY-002", "PROXY-003", "PROXY-005"]

/-- The settled outcomes of the five fan-out analyses, already passed
through `settledToResult`. -/
structure FanOutOutcomes where
  storageResult : AnalyzerResult
  abiResult : AnalyzerResult
  uupsOutcome : AnalyzerResult
  transparentOutcome : AnalyzerResult
  initResult : AnalyzerResult
  aclResult : AnalyzerResult

/-- String rendering of `proxyType ?? "unknown"` in the skip reason. -/
def proxyTypeText : Option ProxyType → String
  | some ProxyType.uups => "uups"
  | some ProxyType.transparent => "transparent"
  | some ProxyType.unknown => "unknown"
  | none => "unknown"

/-- The engine orchestrator (engine.ts: `UpgradoorEngine.analyze`), on the
path where foundry validation and implementation resolution succeed. -/
def engineAnalyze (input : EngineInput) (chain : ChainReads)
    (fan : FanOutOutcomes) (now : String) : EngineResultModel :=
  let detection := detectProxy chain input.proxyAddress
  let proxyInfo := detection.1
  let proxyResult := detection.2
  let proxyFindings := completedFindings proxyResult
  if proxyFindings.any (fun f => blockingProxyCodes.contains f.code) then
    let analyzerResults : List (String × AnalyzerResult) :=
      [("proxy-detection", proxyResult),
       ("storage-layout", AnalyzerResult.skipped "proxy-detection-failed"),
       ("abi-diff", AnalyzerResult.skipped "proxy-detection-failed"),
       ("uups-safety", AnalyzerResult.skipped "proxy-detection-failed"),
       ("transparent-safety", AnalyzerResult.skipped "proxy-detection-failed"),
       ("initializer-integrity", AnalyzerResult.skipped "proxy-detection-failed"),
       ("access-control-regression", AnalyzerResult.skipped "proxy-detection-failed")]
    let aggregated := aggregateResults analyzerResults
    { verdict := Verdict.INCOMPLETE
      highestSeverity := none
      findings := aggregated.findings
      reportMarkdown :=
        generateMarkdownReport aggregated proxyInfo (buildMetadata input now)
      analyzerStatus := aggregated.analyzerStatus }
  else
    let proxyType : Option ProxyType := proxyInfo.map (fun p => p.type)
    let proxyPatternResult : AnalyzerResult :=
      if proxyType = some ProxyType.uups then fan.uupsOutcome
      else if proxyType = some ProxyType.transparent then fan.transparentOutcome
      else AnalyzerResult.skipped "proxy-type-unknown"
    let proxyPatternKey : String :=
      if proxyType = some ProxyType.uups then "uups-safety"
      else "transparent-safety"
    let otherProxyKey : String :=
      if proxyType = some ProxyType.uups then "transparent-safety"
      else "uups-safety"
    let analyzerResults : List (String × AnalyzerResult) :=
      [("proxy-detection", proxyResult),
       ("storage-layout", fan.storageResult),
       ("abi-diff", fan.abiResult),
       (proxyPatternKey, proxyPatternResult),
       (otherProxyKey,
        AnalyzerResult.skipped ("proxy-type-is-" ++ proxyTypeText proxyType)),
       ("initializer-integrity", fan.initResult),
       ("access-control-regression", fan.aclResult)]
    let aggregated := aggregateResults analyzerResults
    { verdict := aggregated.verdict
      highestSeverity := aggregated.highestSeverity
      findings := aggregated.findings
      reportMarkdown :=
        generateMarkdownReport aggregated proxyInfo (buildMetadata input now)
      analyzerStatus := aggregated.analyzerStatus }

/-! Concrete example inputs used by witnesses and counterexamples. -/

/-- Chain readings of a healthy UUPS proxy: zero beacon slot, non-zero
implementation slot, implementation bytecode containing the
`proxiableUUID()` selector. -/
def chainUupsEx : ChainReads :=
  { implSlotValue :=
      "0x000000000000000000000000111122223333444455556666777788889999aaaa"
    adminSlotValue :=
      "0x0000000000000000000000000000000000000000000000000000000000000000"
    beaconSlotValue :=
      "0x0000000000000000000000000000000000000000000000000000000000000000"
    implCode := some "0x60806040525952d1902dff"
    proxyCode := some "0x6080" }

/-- Fan-out outcomes where every analysis completed with no findings. -/
def fanAllCompletedEx : FanOutOutcomes :=
  { storageResult := AnalyzerResult.completed []
    abiResult := AnalyzerResult.completed []
    uupsOutcome := AnalyzerResult.completed []
    transparentOutcome := AnalyzerResult.completed []
    initResult := AnalyzerResult.completed []
    aclResult := AnalyzerResult.completed [] }

/-- An engine input. -/
def engineInputEx : EngineInput :=
  { proxyAddress := "0x1000000000000000000000000000000000000001"
    oldImplementationPath := "src/CounterV1.sol"
    newImplementationPath := "src/CounterV2.sol"
    rpcUrl := "http://localhost:8545" }

/-- An old layout: a variable at slot 0 and a variable at slot 2. -/
def oldLayoutEx : List CanonicalStorageEntry :=
  [{ slot := 0, offset := 0, length := 32, canonicalType := "uint256",
     label := "value", contractOrigin := "CounterV1", inheritanceIndex := 0 },
   { slot := 2, offset := 0, length := 32, canonicalType := "uint256",
     label := "total", contractOrigin := "CounterV1", inheritanceIndex := 1 }]

/-- A new layout renaming the slot-0 variable and inserting one at slot 1:
the analyzer emits STOR-010 (from the primary loop) before STOR-002 (from
the insertion loop). -/
def newLayoutEx : List CanonicalStorageEntry :=
  [{ slot := 0, offset := 0, length := 32, canonicalType := "uint256",
     label := "renamedValue", contractOrigin := "CounterV2",
     inheritanceIndex := 0 },
   { slot := 1, offset := 0, length := 32, canonicalType := "uint256",
     label := "inserted", contractOrigin := "CounterV2",
     inheritanceIndex := 1 },
   { slot := 2, offset := 0, length := 32, canonicalType := "uint256",
     label := "total", contractOrigin := "CounterV2", inheritanceIndex := 2 }]

/-- The aggregator input fed by the orchestrator when the storage analyzer
compares `oldLayoutEx` with `newLayoutEx` and the other analyzers find
nothing. -/
def aggregatorInputEx : List (String × AnalyzerResult) :=
  [("proxy-detection", AnalyzerResult.completed []),
   ("storage-layout", analyzeStorageLayout oldLayoutEx newLayoutEx),
   ("abi-diff", AnalyzerResult.completed []),
   ("uups-safety", AnalyzerResult.completed []),
   ("transparent-safety", AnalyzerResult.skipped "proxy-type-is-uups"),
   ("initializer-integrity", AnalyzerResult.completed []),
   ("access-control-regression", AnalyzerResult.completed [])]

/-- Lexicographic less-or-equal on character lists. -/
def lexLeChars : List Char → List Char → Bool
  | [], _ => true
  | _ :: _, [] => false
  | a :: as, b :: bs =>
      if a < b then true
      else if a = b then lexLeChars as bs
      else false

/-- Lexicographic less-or-equal on strings (by character data). -/
def strLexLe (a b : String) : Bool := lexLeChars a.data b.data

/-- Modelled from the spec (section 5 ordering guarantees): on findings of a
single analyzer the claimed stable total order reduces to its second
component, the finding code in lexicographic order; a list respecting the
claimed order therefore has pairwise nondecreasing codes. -/
def specCodeSorted (codes : List String) : Prop :=
  List.Pairwise (fun a b => strLexLe a b = true) codes

/-- An old layout with one variable and a 50-slot storage gap. -/
def gapOldLayoutEx : List CanonicalStorageEntry :=
  [{ slot := 0, offset := 0, length := 32, canonicalType := "uint256",
     label := "value", contractOrigin := "BaseV1", inheritanceIndex := 0 },
   { slot := 1, offset := 0, length := 1600, canonicalType := "uint256[50]",
     label := "__gap", contractOrigin := "BaseV1", inheritanceIndex := 1 }]

/-- A new layout that shrank the gap to 49 slots without appending any
variable: the gap invariant 49 + 0 < 50 is violated. -/
def gapNewLayoutEx : List CanonicalStorageEntry :=
  [{ slot := 0, offset := 0, length := 32, canonicalType := "uint256",
     label := "value", contractOrigin := "BaseV2", inheritanceIndex := 0 },
   { slot := 1, offset := 0, length := 1568, canonicalType := "uint256[49]",
     label := "__gap", contractOrigin := "BaseV2", inheritanceIndex := 1 }]

/-- An `_authorizeUpgrade` node guarded by a custom modifier `onlyBob`
whose lowercased name contains the spec keyword `only` but none of the
keywords of `accessModifiers`; the body has one statement and no
message-sender reference. -/
def onlyBobAuthorizeUpgradeEx : FunctionNode :=
  { modifiers := ["onlyBob"]
    body := some { statements := ["emit UpgradeRequested(newImplementation)"] } }

/-- Chain readings of an ambiguous proxy (no UUPS marker, zero admin slot)
whose own bytecode contains the raw admin-slot constant: the fallback
classifies it as transparent. -/
def chainAmbiguousTransparentEx : ChainReads :=
  { implSlotValue :=
      "0x000000000000000000000000111122223333444455556666777788889999aaaa"
    adminSlotValue :=
      "0x0000000000000000000000000000000000000000000000000000000000000000"
    beaconSlotValue :=
      "0x0000000000000000000000000000000000000000000000000000000000000000"
    implCode := some "0x608060405260043610"
    proxyCode := some
      "0x6080b53127684a568b3173ae13b9f8a6016e243e63b6e8ee1178d6a717850b5d6103ff" }

/-- Chain readings of an ambiguous proxy whose own bytecode does not contain
the admin-slot constant: PROXY-005 is emitted. -/
def chainAmbiguousUnknownEx : ChainReads :=
  { implSlotValue :=
      "0x000000000000000000000000111122223333444455556666777788889999aaaa"
    adminSlotValue :=
      "0x0000000000000000000000000000000000000000000000000000000000000000"
    beaconSlotValue :=
      "0x0000000000000000000000000000000000000000000000000000000000000000"
    implCode := some "0x608060405260043610"
    proxyCode := some "0x6080deadbeef" }

/-- A new ABI in which `foo()` and `bar(uint256)` share one selector. -/
def abiWithCollisionEx : ExtractedAbi :=
  { functions :=
      [{ selector := "0xdeadbeef", signature := "foo()", name := "foo",
         inputs := [], outputs := [], stateMutability := "nonpayable" },
       { selector := "0xdeadbeef", signature := "bar(uint256)", name := "bar",
         inputs := ["uint256"], outputs := [], stateMutability := "nonpayable" }]
    events := [] }

/-- The empty ABI. -/
def abiEmptyEx : ExtractedAbi := { functions := [], events := [] }

/-- An analyzer-outcome record holding the seven canonical names, all
completed with no findings (one skipped proxy branch), plus an extra entry
under a non-canonical key whose status is errored. -/
def recordWithUnknownErroredKeyEx : List (String × AnalyzerResult) :=
  [("proxy-detection", AnalyzerResult.completed []),
   ("storage-layout", AnalyzerResult.completed []),
   ("abi-diff", AnalyzerResult.completed []),
   ("uups-safety", AnalyzerResult.completed []),
   ("transparent-safety", AnalyzerResult.skipped "proxy-type-is-uups"),
   ("initializer-integrity", AnalyzerResult.completed []),
   ("access-control-regression", AnalyzerResult.completed []),
   ("custom-lint", AnalyzerResult.errored "tool crashed")]

/-- The seven-name record in which the storage analyzer errored and every
other analyzer completed with no findings. -/
def recordWithStorageErroredEx : List (String × AnalyzerResult) :=
  [("proxy-detection", AnalyzerResult.completed []),
   ("storage-layout", AnalyzerResult.errored "forge inspect failed"),
   ("abi-diff", AnalyzerResult.completed []),
   ("uups-safety", AnalyzerResult.completed []),
   ("transparent-safety", AnalyzerResult.skipped "proxy-type-is-uups"),
   ("initializer-integrity", AnalyzerResult.completed []),
   ("access-control-regression", AnalyzerResult.completed [])]

/-! Helper lemmas about association-list lookups and the aggregator. -/

theorem lookup_mem {β : Type} :
    ∀ {l : List (String × β)} {k : String} {v : β},
      l.lookup k = some v → (k, v) ∈ l := by
  intro l
  induction l with
  | nil => intro k v h; simp [List.lookup] at h
  | cons a rest ih =>
      intro k v h
      obtain ⟨k', v'⟩ := a
      simp only [List.lookup] at h
      cases hk : (k == k') with
      | true =>
          rw [hk] at h
          obtain rfl : v' = v := by simpa using h
          obtain rfl : k = k' := eq_of_beq hk
          exact List.mem_cons_self _ _
      | false =>
          rw [hk] at h
          exact List.mem_cons_of_mem _ (ih (by simpa using h))

theorem mem_lookup_of_nodup {β : Type} :
    ∀ {l : List (String × β)}, (l.map Prod.fst).Nodup →
      ∀ {k : String} {v : β}, (k, v) ∈ l → l.lookup k = some v := by
  intro l
  induction l with
  | nil => intro _ k v h; simp at h
  | cons a rest ih =>
      intro hnd k v h
      obtain ⟨k', v'⟩ := a
      simp only [List.map_cons, List.nodup_cons] at hnd
      rcases List.mem_cons.mp h with heq | hmem
      · obtain ⟨rfl, rfl⟩ := Prod.mk.injEq .. ▸ And.intro (congrArg Prod.fst heq) (congrArg Prod.snd heq)
        simp [List.lookup]
      · have hkne : k ≠ k' := by
          intro rfl
          exact hnd.1 (List.mem_map.mpr ⟨(k, v), hmem, rfl⟩)
        simp only [List.lookup]
        have hkb : (k == k') = false := beq_eq_false_iff_ne.mpr hkne
        rw [hkb]
        exact ih hnd.2 hmem

theorem statusMap_keys (rs : List (String × AnalyzerResult)) :
    (statusMap rs).map Prod.fst = rs.map Prod.fst := by
  simp [statusMap]

theorem anyCriticalCapableErrored_eq_false
    {rs : List (String × AnalyzerResult)}
    (hnoerr : ∀ p ∈ rs, statusOf p.2 ≠ AnalyzerStatus.errored) :
    anyCriticalCapableErrored rs = false := by
  rw [anyCriticalCapableErrored]
  rw [List.any_eq_false]
  intro name _
  simp only [beq_iff_eq]
  intro hlk
  have hmem := lookup_mem hlk
  obtain ⟨p, hp, hpe⟩ := List.mem_map.mp hmem
  have : statusOf p.2 = AnalyzerStatus.errored := by
    have := congrArg Prod.snd hpe
    simpa [statusMap] using this
  exact hnoerr p hp this

theorem anyCriticalCapableErrored_eq_true
    {rs : List (String × AnalyzerResult)}
    (hnd : (rs.map Prod.fst).Nodup) {name : String} {msg : String}
    (hmem : (name, AnalyzerResult.errored msg) ∈ rs)
    (hname : name ∈ criticalCapableAnalyzers) :
    anyCriticalCapableErrored rs = true := by
  rw [anyCriticalCapableErrored, List.any_eq_true]
  refine ⟨name, hname, ?_⟩
  simp only [beq_iff_eq]
  have hmem2 : (name, AnalyzerStatus.errored) ∈ statusMap rs :=
    List.mem_map.mpr ⟨(name, AnalyzerResult.errored msg), hmem, rfl⟩
  exact mem_lookup_of_nodup (by rw [statusMap_keys]; exact hnd) hmem2

theorem any_severity_iff (fs : List Finding) (sv : Severity) :
    fs.any (fun f => f.severity == sv) = true ↔ ∃ f ∈ fs, f.severity = sv := by
  simp [List.any_eq_true]

theorem verdictOf_eq_unsafe_iff (fs : List Finding) :
    verdictOf fs = Verdict.UNSAFE ↔
      ∃ f ∈ fs, f.severity = Severity.CRITICAL ∨ f.severity = Severity.HIGH := by
  rw [verdictOf]
  split_ifs with h1 h2 h3
  · refine iff_of_true rfl ?_
    obtain ⟨f, hf, he⟩ := (any_severity_iff fs _).mp h1
    exact ⟨f, hf, Or.inl he⟩
  · refine iff_of_true rfl ?_
    obtain ⟨f, hf, he⟩ := (any_severity_iff fs _).mp h2
    exact ⟨f, hf, Or.inr he⟩
  · refine iff_of_false (by decide) ?_
    rintro ⟨f, hf, he | he⟩
    · exact h1 ((any_severity_iff fs _).mpr ⟨f, hf, he⟩)
    · exact h2 ((any_severity_iff fs _).mpr ⟨f, hf, he⟩)
  · refine iff_of_false (by decide) ?_
    rintro ⟨f, hf, he | he⟩
    · exact h1 ((any_severity_iff fs _).mpr ⟨f, hf, he⟩)
    · exact h2 ((any_severity_iff fs _).mpr ⟨f, hf, he⟩)

theorem verdictOf_eq_review_iff (fs : List Finding) :
    verdictOf fs = Verdict.REVIEW_REQUIRED ↔
      ((∀ f ∈ fs, f.severity ≠ Severity.CRITICAL ∧
          f.severity ≠ Severity.HIGH) ∧
        ∃ f ∈ fs, f.severity = Severity.MEDIUM) := by
  rw [verdictOf]
  split_ifs with h1 h2 h3
  · refine iff_of_false (by decide) ?_
    rintro ⟨hall, -⟩
    obtain ⟨f, hf, he⟩ := (any_severity_iff fs _).mp h1
    exact (hall f hf).1 he
  · refine iff_of_false (by decide) ?_
    rintro ⟨hall, -⟩
    obtain ⟨f, hf, he⟩ := (any_severity_iff fs _).mp h2
    exact (hall f hf).2 he
  · refine iff_of_true rfl ?_
    refine ⟨?_, (any_severity_iff fs _).mp h3⟩
    intro f hf
    constructor
    · intro he
      exact h1 ((any_severity_iff fs _).mpr ⟨f, hf, he⟩)
    · intro he
      exact h2 ((any_severity_iff fs _).mpr ⟨f, hf, he⟩)
  · refine iff_of_false (by decide) ?_
    rintro ⟨-, ⟨f, hf, he⟩⟩
    exact h3 ((any_severity_iff fs _).mpr ⟨f, hf, he⟩)

theorem verdictOf_eq_safe_iff (fs : List Finding) :
    verdictOf fs = Verdict.SAFE ↔ ∀ f ∈ fs, f.severity = Severity.LOW := by
  rw [verdictOf]
  split_ifs with h1 h2 h3
  · refine iff_of_false (by decide) ?_
    intro hall
    obtain ⟨f, hf, he⟩ := (any_severity_iff fs _).mp h1
    rw [hall f hf] at he
    exact absurd he (by decide)
  · refine iff_of_false (by decide) ?_
    intro hall
    obtain ⟨f, hf, he⟩ := (any_severity_iff fs _).mp h2
    rw [hall f hf] at he
    exact absurd he (by decide)
  · refine iff_of_false (by decide) ?_
    intro hall
    obtain ⟨f, hf, he⟩ := (any_severity_iff fs _).mp h3
    rw [hall f hf] at he
    exact absurd he (by decide)
  · refine iff_of_true rfl ?_
    intro f hf
    cases hsev : f.severity with
    | CRITICAL => exact absurd ((any_severity_iff fs _).mpr ⟨f, hf, hsev⟩) h1
    | HIGH => exact absurd ((any_severity_iff fs _).mpr ⟨f, hf, hsev⟩) h2
    | MEDIUM => exact absurd ((any_severity_iff fs _).mpr ⟨f, hf, hsev⟩) h3
    | LOW => rfl

theorem foldl_highestStep_some (l : List Finding) :
    ∀ (s : Severity), l.foldl highestStep (some s) ≠ none := by
  induction l with
  | nil => intro s h; exact absurd h (by simp)
  | cons f rest ih =>
      intro s
      rw [List.foldl_cons]
      rw [show highestStep (some s) f =
        (if severityOrder f.severity > severityOrder s then some f.severity
         else some s) from rfl]
      split_ifs
      · exact ih _
      · exact ih _

theorem highestOf_eq_none_iff (fs : List Finding) :
    highestOf fs = none ↔ fs = [] := by
  cases fs with
  | nil => simp [highestOf]
  | cons f rest =>
      simp only [highestOf, List.foldl_cons]
      rw [show highestStep none f = some f.severity from rfl]
      exact iff_of_false (foldl_highestStep_some rest f.severity) (by simp)

theorem foldl_highestStep_max :
    ∀ (l : List Finding) (acc : Option Severity) (s : Severity),
      l.foldl highestStep acc = some s →
        ((acc = some s ∨ ∃ f ∈ l, f.severity = s) ∧
          (∀ f ∈ l, severityOrder f.severity ≤ severityOrder s) ∧
          ∀ a, acc = some a → severityOrder a ≤ severityOrder s) := by
  intro l
  induction l with
  | nil =>
      intro acc s h
      simp only [List.foldl_nil] at h
      refine ⟨Or.inl h, by simp, ?_⟩
      intro a ha
      rw [h] at ha
      obtain rfl : a = s := by injection ha.symm
      exact le_refl _
  | cons f rest ih =>
      intro acc s h
      rw [List.foldl_cons] at h
      obtain ⟨hsrc, hall, hacc⟩ := ih (highestStep acc f) s h
      have hstep : ∀ a, highestStep acc f = some a →
          severityOrder a ≤ severityOrder s := hacc
      have hfle : severityOrder f.severity ≤ severityOrder s := by
        cases acc with
        | none => exact hstep f.severity rfl
        | some h0 =>
            by_cases hgt : severityOrder f.severity > severityOrder h0
            · exact hstep f.severity (by simp [highestStep, hgt])
            · have h0le : severityOrder h0 ≤ severityOrder s :=
                hstep h0 (by simp [highestStep, hgt])
              exact le_trans (le_of_not_lt hgt) h0le
      refine ⟨?_, ?_, ?_⟩
      · rcases hsrc with hs | ⟨g, hg, he⟩
        · cases acc with
          | none =>
              have : f.severity = s := by
                have : highestStep none f = some s := hs
                simpa [highestStep] using this
              exact Or.inr ⟨f, List.mem_cons_self _ _, this⟩
          | some h0 =>
              by_cases hgt : severityOrder f.severity > severityOrder h0
              · have : f.severity = s := by
                  have := hs
                  simp [highestStep, hgt] at this
                  exact this
                exact Or.inr ⟨f, List.mem_cons_self _ _, this⟩
              · have : h0 = s := by
                  have := hs
                  simp [highestStep, hgt] at this
                  exact this
                exact Or.inl (by rw [this])
        · exact Or.inr ⟨g, List.mem_cons_of_mem _ hg, he⟩
      · intro g hg
        rcases List.mem_cons.mp hg with rfl | hgr
        · exact hfle
        · exact hall g hgr
      · intro a ha
        by_cases hgt : severityOrder f.severity > severityOrder a
        · exact le_trans (le_of_lt hgt) hfle
        · exact hstep a (by rw [ha]; simp [highestStep, hgt])

theorem aggregateResults_of_no_errored
    {rs : List (String × AnalyzerResult)}
    (h : anyCriticalCapableErrored rs = false) :
    aggregateResults rs =
      { verdict := verdictOf (unionFindings rs),
        highestSeverity := highestOf (unionFindings rs),
        findings := unionFindings rs, analyzerStatus := statusMap rs } := by
  simp [aggregateResults, h]

theorem aggregateResults_of_errored
    {rs : List (String × AnalyzerResult)}
    (h : anyCriticalCapableErrored rs = true) :
    aggregateResults rs =
      { verdict := Verdict.INCOMPLETE, highestSeverity := none,
        findings := unionFindings rs, analyzerStatus := statusMap rs } := by
  simp [aggregateResults, h]

/-- C1: over an analyzer-outcome record whose keys are among the seven
analyzer names and in which no outcome is errored, with F the union of
findings of the completed outcomes: the aggregator verdict is UNSAFE iff F
holds a CRITICAL or HIGH finding, REVIEW_REQUIRED iff F holds no CRITICAL
or HIGH finding but holds a MEDIUM one, and SAFE iff no finding is above
LOW; the highest severity is absent iff F is empty, and when present it is
the maximum severity of F under CRITICAL > HIGH > MEDIUM > LOW. -/
theorem aggregator_verdict_ladder
    (results : List (String × AnalyzerResult))
    (_hkeys : ∀ p ∈ results, p.1 ∈ criticalCapableAnalyzers)
    (hnoerr : ∀ p ∈ results, statusOf p.2 ≠ AnalyzerStatus.errored) :
    ((aggregateResults results).verdict = Verdict.UNSAFE ↔
      ∃ f ∈ unionFindings results,
        f.severity = Severity.CRITICAL ∨ f.severity = Severity.HIGH) ∧
    ((aggregateResults results).verdict = Verdict.REVIEW_REQUIRED ↔
      ((∀ f ∈ unionFindings results,
          f.severity ≠ Severity.CRITICAL ∧ f.severity ≠ Severity.HIGH) ∧
        ∃ f ∈ unionFindings results, f.severity = Severity.MEDIUM)) ∧
    ((aggregateResults results).verdict = Verdict.SAFE ↔
      ∀ f ∈ unionFindings results, f.severity = Severity.LOW) ∧
    ((aggregateResults results).highestSeverity = none ↔
      unionFindings results = []) ∧
    (∀ s, (aggregateResults results).highestSeverity = some s →
      (∃ f ∈ unionFindings results, f.severity = s) ∧
      ∀ f ∈ unionFindings results,
        severityOrder f.severity ≤ severityOrder s) := by
  have hcce := anyCriticalCapableErrored_eq_false hnoerr
  rw [aggregateResults_of_no_errored hcce]
  refine ⟨verdictOf_eq_unsafe_iff _, verdictOf_eq_review_iff _,
    verdictOf_eq_safe_iff _, highestOf_eq_none_iff _, ?_⟩
  intro s hs
  obtain ⟨hsrc, hall, -⟩ :=
    foldl_highestStep_max (unionFindings results) none s hs
  refine ⟨?_, hall⟩
  rcases hsrc with hnone | hex
  · exact absurd hnone (by simp)
  · exact hex

theorem aggregator_verdict_ladder_witness :
    (aggregateResults aggregatorInputEx).verdict = Verdict.UNSAFE :=
  ((aggregator_verdict_ladder aggregatorInputEx (by decide)
    (by decide)).1).mpr (by decide)

/-- C3: if any of the seven canonical analyzers has status errored in the
input record, the aggregator verdict is INCOMPLETE — in particular it is
never SAFE — regardless of the findings of the other analyzers. -/
theorem errored_analyzer_forces_incomplete
    (results : List (String × AnalyzerResult)) (name msg : String)
    (hnd : (results.map Prod.fst).Nodup)
    (hmem : (name, AnalyzerResult.errored msg) ∈ results)
    (hname : name ∈ criticalCapableAnalyzers) :
    (aggregateResults results).verdict = Verdict.INCOMPLETE ∧
    (aggregateResults results).verdict ≠ Verdict.SAFE := by
  have h := anyCriticalCapableErrored_eq_true hnd hmem hname
  rw [aggregateResults_of_errored h]
  refine ⟨rfl, ?_⟩
  show Verdict.INCOMPLETE ≠ Verdict.SAFE
  decide

theorem errored_analyzer_forces_incomplete_witness :
    (aggregateResults recordWithStorageErroredEx).verdict =
      Verdict.INCOMPLETE :=
  (errored_analyzer_forces_incomplete recordWithStorageErroredEx
    "storage-layout" "forge inspect failed" (by decide)
    (by simp [recordWithStorageErroredEx]) (by decide)).1

/-- C10: only the seven fixed analyzer names can force the INCOMPLETE
verdict: on a record holding an errored outcome under the non-canonical key
`custom-lint` (and no findings elsewhere), the aggregator still returns
SAFE, and the errored entry still appears in the status map. -/
theorem unknown_errored_key_keeps_safe_verdict :
    (aggregateResults recordWithUnknownErroredKeyEx).verdict = Verdict.SAFE ∧
    ("custom-lint", AnalyzerStatus.errored) ∈
      (aggregateResults recordWithUnknownErroredKeyEx).analyzerStatus := by
  decide

theorem aggregateResults_analyzerStatus
    (rs : List (String × AnalyzerResult)) :
    (aggregateResults rs).analyzerStatus = statusMap rs := by
  rw [aggregateResults]
  split <;> rfl

theorem aggregateResults_findings (rs : List (String × AnalyzerResult)) :
    (aggregateResults rs).findings = unionFindings rs := by
  rw [aggregateResults]
  split <;> rfl

theorem no_errored_of_verdict_safe
    {rs : List (String × AnalyzerResult)}
    (hkeys : ∀ p ∈ rs, p.1 ∈ criticalCapableAnalyzers)
    (hnd : (rs.map Prod.fst).Nodup)
    (hsafe : (aggregateResults rs).verdict = Verdict.SAFE) :
    ∀ p ∈ statusMap rs, p.2 ≠ AnalyzerStatus.errored := by
  cases hcce : anyCriticalCapableErrored rs with
  | true =>
      rw [aggregateResults_of_errored hcce] at hsafe
      have hcontra : Verdict.INCOMPLETE = Verdict.SAFE := hsafe
      exact absurd hcontra (by decide)
  | false =>
      rintro ⟨name, st⟩ hp hpe
      subst hpe
      have hlk : (statusMap rs).lookup name = some AnalyzerStatus.errored := by
        refine mem_lookup_of_nodup ?_ hp
        rw [statusMap_keys]
        exact hnd
      have hname : name ∈ criticalCapableAnalyzers := by
        obtain ⟨q, hq, hqe⟩ := List.mem_map.mp hp
        have h1 : q.1 = name := congrArg Prod.fst hqe
        exact h1 ▸ hkeys q hq
      have htrue : anyCriticalCapableErrored rs = true := by
        rw [anyCriticalCapableErrored, List.any_eq_true]
        exact ⟨name, hname, by simp [hlk]⟩
      rw [htrue] at hcce
      cases hcce

/-- C4 amended: whenever the engine verdict is SAFE, no entry of the
analyzer-status map is errored — every entry is completed or skipped.  (The
counterexample theorem shows the original claim is too strong: a SAFE run
still carries the inactive proxy branch as skipped.) -/
theorem safe_engine_verdict_no_errored_status
    (input : EngineInput) (chain : ChainReads) (fan : FanOutOutcomes)
    (now : String)
    (hsafe : (engineAnalyze input chain fan now).verdict = Verdict.SAFE) :
    ∀ p ∈ (engineAnalyze input chain fan now).analyzerStatus,
      p.2 = AnalyzerStatus.completed ∨ p.2 = AnalyzerStatus.skipped := by
  rw [engineAnalyze] at hsafe ⊢
  dsimp only at hsafe ⊢
  by_cases hb : ((completedFindings (detectProxy chain input.proxyAddress).2).any
      fun f => blockingProxyCodes.contains f.code) = true
  · rw [if_pos hb] at hsafe
    have hcontra : Verdict.INCOMPLETE = Verdict.SAFE := hsafe
    exact absurd hcontra (by decide)
  · rw [if_neg hb] at hsafe ⊢
    dsimp only at hsafe ⊢
    rw [aggregateResults_analyzerStatus]
    intro p hp
    have hne := no_errored_of_verdict_safe ?_ ?_ hsafe p hp
    · cases hst : p.2 with
      | completed => exact Or.inl rfl
      | skipped => exact Or.inr rfl
      | errored => exact absurd hst hne
    · intro q hq
      fin_cases hq <;> dsimp only <;> first | decide | (split <;> decide)
    · simp only [List.map_cons, List.map_nil]
      split_ifs <;> decide

/-- C4 counterexample: a concrete run on a healthy UUPS proxy in which every
analysis completes with no findings: the engine verdict is SAFE, yet the
analyzer-status map carries the inactive transparent-safety branch as
skipped, so not every analyzer status is completed. -/
theorem safe_engine_verdict_with_skipped_status :
    (engineAnalyze engineInputEx chainUupsEx fanAllCompletedEx
      "2024-06-01T12:00:00.000Z").verdict = Verdict.SAFE ∧
    ("transparent-safety", AnalyzerStatus.skipped) ∈
      (engineAnalyze engineInputEx chainUupsEx fanAllCompletedEx
        "2024-06-01T12:00:00.000Z").analyzerStatus := by
  decide

theorem safe_engine_verdict_no_errored_status_witness :
    (engineAnalyze engineInputEx chainUupsEx fanAllCompletedEx
      "2024-06-01T12:00:00.000Z").verdict = Verdict.SAFE ∧
    ∀ p ∈ (engineAnalyze engineInputEx chainUupsEx fanAllCompletedEx
      "2024-06-01T12:00:00.000Z").analyzerStatus,
      p.2 = AnalyzerStatus.completed ∨ p.2 = AnalyzerStatus.skipped :=
  ⟨by decide,
   safe_engine_verdict_no_errored_status engineInputEx chainUupsEx
     fanAllCompletedEx "2024-06-01T12:00:00.000Z" (by decide)⟩

/-- C2 amended: the verdict, highest severity, findings and analyzer-status
fields of the engine result are functions of the inputs alone — two runs
with identical inputs agree on them whatever the clock reads; only
`report_markdown` depends on the clock reading. -/
theorem engine_semantic_fields_ignore_clock
    (input : EngineInput) (chain : ChainReads) (fan : FanOutOutcomes)
    (now1 now2 : String) :
    (engineAnalyze input chain fan now1).verdict =
      (engineAnalyze input chain fan now2).verdict ∧
    (engineAnalyze input chain fan now1).highestSeverity =
      (engineAnalyze input chain fan now2).highestSeverity ∧
    (engineAnalyze input chain fan now1).findings =
      (engineAnalyze input chain fan now2).findings ∧
    (engineAnalyze input chain fan now1).analyzerStatus =
      (engineAnalyze input chain fan now2).analyzerStatus := by
  simp only [engineAnalyze]
  split <;> dsimp only <;> exact ⟨rfl, rfl, rfl, rfl⟩

/-- C2 counterexample: two engine runs with identical proxy readings,
identical analyzer outcomes and identical inputs, whose wall-clock readings
differ by one millisecond, produce different `report_markdown` strings —
`buildMetadata` embeds `new Date().toISOString()` into the report, so the
result is not byte-for-byte identical across runs. -/
theorem engine_report_differs_across_clock_readings :
    (engineAnalyze engineInputEx chainUupsEx fanAllCompletedEx
      "2024-01-01T00:00:00.000Z").reportMarkdown ≠
    (engineAnalyze engineInputEx chainUupsEx fanAllCompletedEx
      "2024-01-01T00:00:00.001Z").reportMarkdown := by
  decide


theorem storMainStep_code {newLayout : List CanonicalStorageEntry}
    {e : CanonicalStorageEntry} {f : Finding}
    (h : f ∈ storMainStep newLayout e) :
    f.code = "STOR-001" ∨ f.code = "STOR-003" ∨ f.code = "STOR-004" ∨
      f.code = "STOR-010" := by
  rw [storMainStep] at h
  repeat' split at h
  all_goals
    simp_all [stor001Finding, stor003Finding, stor004Finding, stor010Finding]

theorem storMainFindings_code {oldLayout newLayout : List CanonicalStorageEntry}
    {f : Finding} (h : f ∈ storMainFindings oldLayout newLayout) :
    f.code = "STOR-001" ∨ f.code = "STOR-003" ∨ f.code = "STOR-004" ∨
      f.code = "STOR-010" := by
  obtain ⟨e, -, hf⟩ := List.mem_flatMap.mp h
  exact storMainStep_code hf

theorem stor002Findings_code {oldLayout newLayout : List CanonicalStorageEntry}
    {f : Finding} (h : f ∈ stor002Findings oldLayout newLayout) :
    f.code = "STOR-002" := by
  obtain ⟨e, -, hf⟩ := List.mem_flatMap.mp h
  repeat' split at hf
  all_goals simp_all [stor002Finding]

theorem gapStep_mem {newGaps : List CanonicalStorageEntry} {v : Nat}
    {g : CanonicalStorageEntry} {f : Finding}
    (h : f ∈ gapStep newGaps v g) :
    (newGaps.find? (fun x => decide (x.slot = g.slot)) = none ∧
      f = stor008Finding g (extractArraySize g.canonicalType)) ∨
    (∃ ng, newGaps.find? (fun x => decide (x.slot = g.slot)) = some ng ∧
      extractArraySize ng.canonicalType + v <
        extractArraySize g.canonicalType ∧
      f = stor007Finding g ng (extractArraySize g.canonicalType)
        (extractArraySize ng.canonicalType) v) := by
  rw [gapStep] at h
  dsimp only at h
  split at h
  · left
    exact ⟨by assumption, by simpa using h⟩
  · right
    split at h
    · exact ⟨_, by assumption, by assumption, by simpa using h⟩
    · simp at h

theorem pairwise_slot_inj {l : List CanonicalStorageEntry}
    (hpw : l.Pairwise (fun a b => a.slot ≠ b.slot)) :
    ∀ {a b : CanonicalStorageEntry}, a ∈ l → b ∈ l → a.slot = b.slot →
      a = b := by
  induction l with
  | nil => intro a b ha; simp at ha
  | cons x rest ih =>
      intro a b ha hb hslot
      rw [List.pairwise_cons] at hpw
      rcases List.mem_cons.mp ha with rfl | har
      · rcases List.mem_cons.mp hb with rfl | hbr
        · rfl
        · exact absurd hslot (hpw.1 b hbr)
      · rcases List.mem_cons.mp hb with rfl | hbr
        · exact absurd hslot.symm (hpw.1 a har)
        · exact ih hpw.2 har hbr hslot

/-- C5: for every old gap entry (label ending in `gap` case-insensitively,
canonical type `uint256[N]`): if no new gap entry shares its slot, a
STOR-008 finding against that slot is emitted; otherwise, with `N_old` and
`N_new` the declared array sizes (as parsed from the canonical type by
`extractArraySize`) and `V` the total count of appended new non-gap
variables, a STOR-007 finding against that slot is emitted iff
`N_new + V < N_old`.  The pairwise-distinct-slot hypothesis expresses that
the old gaps occupy distinct slots, which pins each emitted finding to its
gap. -/
theorem gap_validation_stor007_stor008
    (oldLayout newLayout : List CanonicalStorageEntry)
    (oldGap : CanonicalStorageEntry) (Nold : Nat)
    (hmem : oldGap ∈ oldLayout) (hgap : isGapEntry oldGap = true)
    (hNold : extractArraySize oldGap.canonicalType = Nold)
    (hdistinct : (oldLayout.filter isGapEntry).Pairwise
      (fun a b => a.slot ≠ b.slot)) :
    ((∀ g ∈ newLayout, isGapEntry g = true → g.slot ≠ oldGap.slot) →
      ∃ f ∈ completedFindings (analyzeStorageLayout oldLayout newLayout),
        f.code = "STOR-008" ∧
        f.location = some { slot := some oldGap.slot, contract := some oldGap.contractOrigin }) ∧
    (∀ ng Nnew,
      (newLayout.filter isGapEntry).find?
          (fun g => decide (g.slot = oldGap.slot)) = some ng →
      extractArraySize ng.canonicalType = Nnew →
      ((∃ f ∈ completedFindings (analyzeStorageLayout oldLayout newLayout),
          f.code = "STOR-007" ∧
          (f.location.map Location.slot) = some (some oldGap.slot)) ↔
        Nnew + appendedNewVarCount oldLayout newLayout < Nold)) := by
  have hgapmem : oldGap ∈ oldLayout.filter isGapEntry :=
    List.mem_filter.mpr ⟨hmem, hgap⟩
  have hfs : completedFindings (analyzeStorageLayout oldLayout newLayout) =
      storMainFindings oldLayout newLayout ++
      stor002Findings oldLayout newLayout ++
      (if (storNewVars oldLayout newLayout).isEmpty then []
       else [stor009Finding (storNewVars oldLayout newLayout)]) ++
      validateGaps oldLayout newLayout
        (storNewVars oldLayout newLayout).length := by
    rw [analyzeStorageLayout]
    rfl
  constructor
  · intro hnone
    have hfind : (newLayout.filter isGapEntry).find?
        (fun g => decide (g.slot = oldGap.slot)) = none := by
      rw [List.find?_eq_none]
      intro g hg
      obtain ⟨hgmem, hggap⟩ := List.mem_filter.mp hg
      simpa using hnone g hgmem hggap
    have hemit : stor008Finding oldGap Nold ∈
        validateGaps oldLayout newLayout
          (storNewVars oldLayout newLayout).length := by
      rw [validateGaps]
      refine List.mem_flatMap.mpr ⟨oldGap, hgapmem, ?_⟩
      rw [gapStep, hfind]
      dsimp only
      rw [hNold]
      exact List.mem_singleton.mpr rfl
    refine ⟨stor008Finding oldGap Nold, ?_, rfl, rfl⟩
    rw [hfs]
    exact List.mem_append_right _ hemit
  · intro ng Nnew hfind hNnew
    constructor
    · rintro ⟨f, hfmem, hcode, hlocslot⟩
      rw [hfs] at hfmem
      rcases List.mem_append.mp hfmem with hfmem | hgapf
      · rcases List.mem_append.mp hfmem with hfmem | h9
        · rcases List.mem_append.mp hfmem with hmain | h2
          · rcases storMainFindings_code hmain with h | h | h | h <;>
              simp [h] at hcode
          · have := stor002Findings_code h2
            simp [this] at hcode
        · split at h9
          · simp at h9
          · rw [List.mem_singleton.mp h9] at hcode
            simp [stor009Finding] at hcode
      · rw [validateGaps] at hgapf
        obtain ⟨g, hgmem, hstep⟩ := List.mem_flatMap.mp hgapf
        rcases gapStep_mem hstep with ⟨-, rfl⟩ | ⟨ng', hfind', hlt, rfl⟩
        · simp [stor008Finding] at hcode
        · have hng'slot : ng'.slot = g.slot := by
            have := List.find?_some hfind'
            simpa using this
          have hloceq : ng'.slot = oldGap.slot := by
            have : (stor007Finding g ng' (extractArraySize g.canonicalType)
                (extractArraySize ng'.canonicalType)
                (storNewVars oldLayout newLayout).length).location.map
                  Location.slot = some (some ng'.slot) := rfl
            rw [this] at hlocslot
            simpa using hlocslot
          have hgeq : g = oldGap :=
            pairwise_slot_inj hdistinct hgmem hgapmem
              (hng'slot ▸ hloceq)
          subst hgeq
          have : ng' = ng := by
            rw [hfind'] at hfind
            injection hfind
          subst this
          rw [hNold, hNnew] at hlt
          exact hlt
    · intro hlt
      have hemit : stor007Finding oldGap ng Nold Nnew
          (storNewVars oldLayout newLayout).length ∈
          validateGaps oldLayout newLayout
            (storNewVars oldLayout newLayout).length := by
        rw [validateGaps]
        refine List.mem_flatMap.mpr ⟨oldGap, hgapmem, ?_⟩
        rw [gapStep, hfind]
        dsimp only
        have hc : extractArraySize ng.canonicalType +
            (storNewVars oldLayout newLayout).length <
            extractArraySize oldGap.canonicalType := by
          rw [hNold, hNnew]
          exact hlt
        rw [if_pos hc]
        rw [hNold, hNnew]
        exact List.mem_singleton.mpr rfl
      refine ⟨stor007Finding oldGap ng Nold Nnew
        (storNewVars oldLayout newLayout).length, ?_, rfl, ?_⟩
      · rw [hfs]
        exact List.mem_append_right _ hemit
      · have hngslot : ng.slot = oldGap.slot := by
          have := List.find?_some hfind
          simpa using this
        simp [stor007Finding, hngslot]



theorem gap_validation_stor007_stor008_witness :
    ∃ f ∈ completedFindings (analyzeStorageLayout gapOldLayoutEx gapNewLayoutEx),
      f.code = "STOR-007" ∧ (f.location.map Location.slot) = some (some 1) :=
  ((gap_validation_stor007_stor008 gapOldLayoutEx gapNewLayoutEx
      { slot := 1, offset := 0, length := 1600, canonicalType := "uint256[50]", label := "__gap", contractOrigin := "BaseV1", inheritanceIndex := 1 }
      50 (by decide) (by decide) (by decide) (by decide)).2
    { slot := 1, offset := 0, length := 1568, canonicalType := "uint256[49]", label := "__gap", contractOrigin := "BaseV2", inheritanceIndex := 1 }
    49 (by decide) (by decide)).mpr (by decide)

theorem lookup_append {β : Type} (l1 l2 : List (String × β)) (k : String) :
    (l1 ++ l2).lookup k =
      (match l1.lookup k with
       | some v => some v
       | none => l2.lookup k) := by
  induction l1 with
  | nil => simp [List.lookup]
  | cons a rest ih =>
      obtain ⟨k', v'⟩ := a
      simp only [List.cons_append, List.lookup]
      cases hk : (k == k') with
      | true => rfl
      | false => exact ih

theorem lookup_singleton {β : Type} (k k' : String) (v : β) :
    ([(k', v)] : List (String × β)).lookup k =
      if k == k' then some v else none := by
  simp only [List.lookup]
  cases hk : (k == k') <;> rfl

theorem abi002Scan_countP (s : String) :
    ∀ (rest : List AbiFunction) (seen : List (String × String)),
      (abi002Scan rest seen).countP
        (fun f => f.code == "ABI-002" && detailStr f "selector" == some s) =
      (if (seen.lookup s).isSome then
        rest.countP (fun fn => fn.selector == s)
      else rest.countP (fun fn => fn.selector == s) - 1) := by
  intro rest
  induction rest with
  | nil =>
      intro seen
      rw [abi002Scan]
      split <;> simp
  | cons fn rest ih =>
      intro seen
      have hcnt : (fn :: rest).countP (fun x => x.selector == s) =
          rest.countP (fun x => x.selector == s) +
            (if (fn.selector == s) = true then 1 else 0) :=
        List.countP_cons _ _ _
      rw [abi002Scan]
      cases hlk : seen.lookup fn.selector with
      | some sig1 =>
          rw [List.countP_cons]
          have hpred : ((abi002Finding fn.selector sig1 fn.signature).code ==
              "ABI-002" &&
              detailStr (abi002Finding fn.selector sig1 fn.signature)
                "selector" == some s) = (fn.selector == s) := rfl
          rw [hpred, ih seen, hcnt]
          cases heqsel : (fn.selector == s) with
          | true =>
              have hseq : fn.selector = s := eq_of_beq heqsel
              have hs : (seen.lookup s).isSome = true := by
                rw [← hseq, hlk]; rfl
              simp only [hs, if_true, if_pos rfl]
          | false =>
              cases hs : (seen.lookup s).isSome <;> simp [hs]
      | none =>
          cases heqsel : (fn.selector == s) with
          | true =>
              have hseq : fn.selector = s := eq_of_beq heqsel
              have hs : (seen.lookup s).isSome = false := by
                rw [← hseq, hlk]; rfl
              have hs2 : ((seen ++ [(fn.selector, fn.signature)]).lookup
                  s).isSome = true := by
                rw [lookup_append, ← hseq, hlk, lookup_singleton,
                  if_pos (by simp)]
                rfl
              rw [ih (seen ++ [(fn.selector, fn.signature)]), if_pos hs2,
                if_neg (by simp [hs]), hcnt]
              simp only [heqsel, if_true]
              omega
          | false =>
              have hsne : (s == fn.selector) = false := by
                cases h : (s == fn.selector) with
                | true =>
                    have hss : s = fn.selector := eq_of_beq h
                    rw [hss] at heqsel
                    simp at heqsel
                | false => rfl
              have hs2 : ((seen ++ [(fn.selector, fn.signature)]).lookup s) =
                  seen.lookup s := by
                rw [lookup_append]
                cases hsk : seen.lookup s with
                | some v => rfl
                | none =>
                    rw [lookup_singleton, hsne]
                    rfl
              rw [ih (seen ++ [(fn.selector, fn.signature)]), hs2, hcnt]
              simp only [heqsel]
              cases hs : (seen.lookup s).isSome <;> simp [hs]

theorem abi002Scan_shape :
    ∀ (rest : List AbiFunction) (seen : List (String × String)) {f : Finding},
      f ∈ abi002Scan rest seen →
      ∃ sel sig1 sig2, f = abi002Finding sel sig1 sig2 ∧
        (seen.lookup sel = some sig1 ∨
         (seen.lookup sel = none ∧
          ∃ g, rest.find? (fun x => x.selector == sel) = some g ∧
            g.signature = sig1)) := by
  intro rest
  induction rest with
  | nil => intro seen f h; rw [abi002Scan] at h; simp at h
  | cons fn rest ih =>
      intro seen f h
      rw [abi002Scan] at h
      cases hlk : seen.lookup fn.selector with
      | some sig1 =>
          rw [hlk] at h
          rcases List.mem_cons.mp h with rfl | htail
          · exact ⟨fn.selector, sig1, fn.signature, rfl, Or.inl hlk⟩
          · obtain ⟨sel, s1, s2, rfl, hcase⟩ := ih seen htail
            refine ⟨sel, s1, s2, rfl, ?_⟩
            rcases hcase with hl | ⟨hn, g, hg, hsig⟩
            · exact Or.inl hl
            · refine Or.inr ⟨hn, g, ?_, hsig⟩
              have hne : (fn.selector == sel) = false := by
                cases hx : (fn.selector == sel) with
                | true =>
                    have hfs : fn.selector = sel := eq_of_beq hx
                    rw [hfs, hn] at hlk
                    cases hlk
                | false => rfl
              rw [List.find?_cons_of_neg _ (by simp [hne])]
              exact hg
      | none =>
          rw [hlk] at h
          obtain ⟨sel, s1, s2, rfl, hcase⟩ :=
            ih (seen ++ [(fn.selector, fn.signature)]) h
          refine ⟨sel, s1, s2, rfl, ?_⟩
          by_cases hselfn : (sel == fn.selector) = true
          · have hse : sel = fn.selector := eq_of_beq hselfn
            subst hse
            rcases hcase with hl | ⟨hn, -⟩
            · rw [lookup_append, hlk, lookup_singleton, if_pos (by simp)]
                at hl
              obtain rfl : fn.signature = s1 := by
                dsimp only at hl
                injection hl
              refine Or.inr ⟨hlk, fn, ?_, rfl⟩
              rw [List.find?_cons_of_pos _ (by simp)]
            · rw [lookup_append, hlk, lookup_singleton, if_pos (by simp)]
                at hn
              cases hn
          · have hne : (fn.selector == sel) = false := by
              cases hx : (fn.selector == sel) with
              | true =>
                  have hfs : fn.selector = sel := eq_of_beq hx
                  rw [hfs] at hselfn
                  exact absurd (by simp) hselfn
              | false => rfl
            rcases hcase with hl | ⟨hn, g, hg, hsig⟩
            · rw [lookup_append] at hl
              cases hsk : seen.lookup sel with
              | some v =>
                  rw [hsk] at hl
                  exact Or.inl hl
              | none =>
                  rw [hsk, lookup_singleton,
                    if_neg (by simp [hselfn])] at hl
                  cases hl
            · rw [lookup_append] at hn
              cases hsk : seen.lookup sel with
              | some v =>
                  rw [hsk] at hn
                  cases hn
              | none =>
                  refine Or.inr ⟨rfl, g, ?_, hsig⟩
                  rw [List.find?_cons_of_neg _ (by simp [hne])]
                  exact hg

theorem abiRemovedFindings_code {oldAbi newAbi : ExtractedAbi} {f : Finding}
    (h : f ∈ abiRemovedFindings oldAbi newAbi) :
    f.code = "ABI-003" ∨ f.code = "ABI-001" := by
  obtain ⟨fn, -, hf⟩ := List.mem_flatMap.mp h
  repeat' split at hf
  all_goals simp_all [abi003Finding, abi001Finding]

theorem abiReturnTypeFindings_code {oldAbi newAbi : ExtractedAbi} {f : Finding}
    (h : f ∈ abiReturnTypeFindings oldAbi newAbi) : f.code = "ABI-004" := by
  obtain ⟨fn, -, hf⟩ := List.mem_flatMap.mp h
  repeat' split at hf
  all_goals simp_all [abi004Finding]

theorem abiAddedFindings_code {oldAbi newAbi : ExtractedAbi} {f : Finding}
    (h : f ∈ abiAddedFindings oldAbi newAbi) : f.code = "ABI-005" := by
  obtain ⟨fn, -, hf⟩ := List.mem_flatMap.mp h
  repeat' split at hf
  all_goals simp_all [abi005Finding]

theorem abiEventFindings_code {oldAbi newAbi : ExtractedAbi} {f : Finding}
    (h : f ∈ abiEventFindings oldAbi newAbi) :
    f.code = "ABI-006" ∨ f.code = "ABI-007" := by
  obtain ⟨ev, -, hf⟩ := List.mem_flatMap.mp h
  repeat' split at hf
  all_goals simp_all [abi006Finding, abi007Finding]

/-- C9: the differ emits at least one ABI-002 finding iff two functions of
the new ABI share a selector; for each selector it emits exactly one ABI-002
finding per occurrence beyond the first (the count of ABI-002 findings
carrying selector `s` is the occurrence count of `s` minus one); and every
ABI-002 finding reports `function1` as the signature of the first occurrence
of its selector in the new ABI. -/
theorem abi002_collision_characterization (oldAbi newAbi : ExtractedAbi) :
    ((∃ f ∈ completedFindings (analyzeAbiDiff oldAbi newAbi),
        f.code = "ABI-002") ↔
      ¬ (newAbi.functions.map AbiFunction.selector).Nodup) ∧
    (∀ s : String,
      (completedFindings (analyzeAbiDiff oldAbi newAbi)).countP
          (fun f => f.code == "ABI-002" && detailStr f "selector" == some s) =
        newAbi.functions.countP (fun fn => fn.selector == s) - 1) ∧
    (∀ f ∈ completedFindings (analyzeAbiDiff oldAbi newAbi),
      f.code = "ABI-002" →
      ∀ s, detailStr f "selector" = some s →
        ∃ g, newAbi.functions.find? (fun x => x.selector == s) = some g ∧
          detailStr f "function1" = some g.signature) := by
  have hfs : completedFindings (analyzeAbiDiff oldAbi newAbi) =
      abiRemovedFindings oldAbi newAbi ++ abi002Scan newAbi.functions [] ++
      abiReturnTypeFindings oldAbi newAbi ++ abiAddedFindings oldAbi newAbi ++
      abiEventFindings oldAbi newAbi := by
    rw [analyzeAbiDiff]
    rfl
  have hnoise : ∀ f ∈ completedFindings (analyzeAbiDiff oldAbi newAbi),
      f.code = "ABI-002" → f ∈ abi002Scan newAbi.functions [] := by
    intro f hf hcode
    rw [hfs] at hf
    rcases List.mem_append.mp hf with hf | hE
    · rcases List.mem_append.mp hf with hf | hD
      · rcases List.mem_append.mp hf with hf | hC
        · rcases List.mem_append.mp hf with hA | hB
          · rcases abiRemovedFindings_code hA with h | h <;>
              exact absurd (hcode.symm.trans h) (by decide)
          · exact hB
        · exact absurd (hcode.symm.trans (abiReturnTypeFindings_code hC))
            (by decide)
      · exact absurd (hcode.symm.trans (abiAddedFindings_code hD)) (by decide)
    · rcases abiEventFindings_code hE with h | h <;>
        exact absurd (hcode.symm.trans h) (by decide)
  have hcountnoise : ∀ s : String,
      (completedFindings (analyzeAbiDiff oldAbi newAbi)).countP
          (fun f => f.code == "ABI-002" && detailStr f "selector" == some s) =
        (abi002Scan newAbi.functions []).countP
          (fun f => f.code == "ABI-002" && detailStr f "selector" == some s) := by
    intro s
    rw [hfs]
    have hzero : ∀ (l : List Finding),
        (∀ f ∈ l, f.code ≠ "ABI-002") →
        l.countP (fun f =>
          f.code == "ABI-002" && detailStr f "selector" == some s) = 0 := by
      intro l hl
      rw [List.countP_eq_zero]
      intro f hf
      have := hl f hf
      simp [this]
    rw [List.countP_append, List.countP_append, List.countP_append,
      List.countP_append]
    rw [hzero (abiRemovedFindings oldAbi newAbi) (fun f hf => by
      rcases abiRemovedFindings_code hf with h | h <;> simp [h])]
    rw [hzero (abiReturnTypeFindings oldAbi newAbi) (fun f hf => by
      simp [abiReturnTypeFindings_code hf])]
    rw [hzero (abiAddedFindings oldAbi newAbi) (fun f hf => by
      simp [abiAddedFindings_code hf])]
    rw [hzero (abiEventFindings oldAbi newAbi) (fun f hf => by
      rcases abiEventFindings_code hf with h | h <;> simp [h])]
    omega
  have hcount : ∀ s : String,
      (completedFindings (analyzeAbiDiff oldAbi newAbi)).countP
          (fun f => f.code == "ABI-002" && detailStr f "selector" == some s) =
        newAbi.functions.countP (fun fn => fn.selector == s) - 1 := by
    intro s
    rw [hcountnoise s, abi002Scan_countP s newAbi.functions []]
    rw [if_neg (by simp [List.lookup])]
  have hcountmap : ∀ s : String,
      (newAbi.functions.map AbiFunction.selector).count s =
        newAbi.functions.countP (fun fn => fn.selector == s) := by
    intro s
    rw [List.count_eq_countP, List.countP_map]
    rfl
  refine ⟨⟨?_, ?_⟩, hcount, ?_⟩
  · rintro ⟨f, hf, hcode⟩
    have hB := hnoise f hf hcode
    obtain ⟨sel, sig1, sig2, rfl, -⟩ :=
      abi002Scan_shape newAbi.functions [] hB
    have hpos : 0 < (abi002Scan newAbi.functions []).countP
        (fun f => f.code == "ABI-002" && detailStr f "selector" == some sel) := by
      rw [List.countP_pos_iff]
      exact ⟨abi002Finding sel sig1 sig2, hB, by simp [abi002Finding, detailStr, List.lookup]⟩
    rw [abi002Scan_countP sel newAbi.functions [],
      if_neg (by simp [List.lookup])] at hpos
    intro hnd
    have hle := List.nodup_iff_count_le_one.mp hnd sel
    rw [hcountmap sel] at hle
    omega
  · intro hnnd
    have hex : ∃ s, 1 < (newAbi.functions.map AbiFunction.selector).count s := by
      by_contra hno
      push_neg at hno
      exact hnnd (List.nodup_iff_count_le_one.mpr (fun a => hno a))
    obtain ⟨s, hs⟩ := hex
    rw [hcountmap s] at hs
    have hposB : 0 < (abi002Scan newAbi.functions []).countP
        (fun f => f.code == "ABI-002" && detailStr f "selector" == some s) := by
      rw [abi002Scan_countP s newAbi.functions [],
        if_neg (by simp [List.lookup])]
      omega
    obtain ⟨f, hfB, hpred⟩ := List.countP_pos_iff.mp hposB
    refine ⟨f, ?_, ?_⟩
    · rw [hfs]
      exact List.mem_append_left _ (List.mem_append_left _
        (List.mem_append_left _ (List.mem_append_right _ hfB)))
    · have hpred2 := hpred
      simp only [Bool.and_eq_true, beq_iff_eq] at hpred2
      exact hpred2.1
  · intro f hf hcode s hsel
    have hB := hnoise f hf hcode
    obtain ⟨sel, sig1, sig2, rfl, hcase⟩ :=
      abi002Scan_shape newAbi.functions [] hB
    rcases hcase with hl | ⟨-, g, hg, hsig⟩
    · simp [List.lookup] at hl
    · have hsel2 : detailStr (abi002Finding sel sig1 sig2) "selector" =
          some sel := rfl
      rw [hsel2] at hsel
      obtain rfl : sel = s := by injection hsel
      refine ⟨g, hg, ?_⟩
      have hfn1 : detailStr (abi002Finding sel sig1 sig2) "function1" =
          some sig1 := rfl
      rw [hfn1, hsig]


theorem abi002_collision_characterization_witness :
    ∃ f ∈ completedFindings (analyzeAbiDiff abiEmptyEx abiWithCollisionEx),
      f.code = "ABI-002" :=
  ((abi002_collision_characterization abiEmptyEx abiWithCollisionEx).1).mpr
    (by decide)

/-- C6 amended: UUPS-003 is emitted iff the artifact holds an
`_authorizeUpgrade` node with a non-empty body and no access-control signal
as the code defines it — `hasAccessControl`, whose modifier keyword set is
onlyOwner / onlyRole / onlyAdmin / auth / authorized / guard (lowercased
substring match), or a body text referencing `msg.sender` or `_msgSender`.
The spec keyword set additionally containing the bare keywords only / owner
/ admin / role is strictly broader than the code; the counterexample
theorem separates them. -/
theorem uups003_iff_no_code_access_signal
    (artifact : Option (Option FunctionNode)) (contractName : String) :
    (∃ f ∈ completedFindings (analyzeUupsSafety artifact contractName),
        f.code = "UUPS-003") ↔
    (∃ fn b, artifact = some (some fn) ∧ fn.body = some b ∧
      b.statements ≠ [] ∧ hasAccessControl fn = false) := by
  rcases artifact with _ | fnopt
  · rw [analyzeUupsSafety]
    simp [completedFindings]
  · rcases fnopt with _ | fn
    · rw [analyzeUupsSafety]
      simp [completedFindings, uups001Finding]
    · rcases hb : fn.body with _ | body
      · rw [analyzeUupsSafety, hb]
        simp [completedFindings, uups002Finding, hb]
      · rw [analyzeUupsSafety, hb]
        dsimp only
        by_cases hlen : body.statements.length = 0
        · rw [if_pos hlen]
          have hempty : body.statements = [] := List.length_eq_zero.mp hlen
          simp [completedFindings, uups002Finding, hb, hempty]
        · rw [if_neg hlen]
          by_cases hac : hasAccessControl fn = true
          · rw [if_neg (by simp [hac])]
            simp only [completedFindings]
            constructor
            · rintro ⟨f, hf, -⟩
              simp at hf
            · rintro ⟨fn', b', heq, hb', -, hacf⟩
              obtain rfl : fn = fn' := by injection (by injection heq : some fn = some fn')
              rw [hac] at hacf
              cases hacf
          · rw [if_pos (by simp at hac; simp [hac])]
            simp only [completedFindings]
            constructor
            · intro _
              refine ⟨fn, body, rfl, hb, ?_, by simpa using hac⟩
              intro hcontra
              rw [hcontra] at hlen
              simp at hlen
            · intro _
              exact ⟨uups003Finding contractName, by simp, rfl⟩


/-- C6 counterexample: an `_authorizeUpgrade` guarded by a modifier named
`onlyBob` carries an access-control signal under the spec wording (its
lowercased name contains the keyword `only`), yet the analyzer still emits
UUPS-003, because the code matches only onlyOwner / onlyRole / onlyAdmin /
auth / authorized / guard. -/
theorem uups003_fires_despite_spec_only_keyword :
    specAccessSignal onlyBobAuthorizeUpgradeEx = true ∧
    ∃ f ∈ completedFindings
        (analyzeUupsSafety (some (some onlyBobAuthorizeUpgradeEx))
          "CounterV2"),
      f.code = "UUPS-003" := by
  decide

/-- C7: when the beacon slot is zero, the implementation slot non-zero, the
implementation has code without the UUPS `proxiableUUID` selector, and the
admin slot is zero, the classifier inspects the proxy bytecode: if it
contains the raw admin-slot constant the proxy is classified Transparent
with the zero admin address recorded in the ProxyInfo (so the downstream
transparent-safety analyzer reports TPROXY-001, Critical, instead of the
run dying at classification); otherwise PROXY-005 is emitted and no
ProxyInfo is returned. -/
theorem ambiguous_zero_admin_classification
    (c : ChainReads) (proxyAddress : String) (implCode : String)
    (hbeacon : slotToAddress c.beaconSlotValue = ZERO_ADDRESS)
    (himplnz : slotToAddress c.implSlotValue ≠ ZERO_ADDRESS)
    (hcode : c.implCode = some implCode) (hne : implCode ≠ "0x")
    (hnouups : strContainsSub implCode (PROXIABLE_UUID_SELECTOR.drop 2) = false)
    (hadmin : slotToAddress c.adminSlotValue = ZERO_ADDRESS) :
    (∀ pc, c.proxyCode = some pc → strContainsSub pc adminSlotHash = true →
      (detectProxy c proxyAddress =
        (some { type := ProxyType.transparent, proxyAddress := proxyAddress, implementationAddress := slotToAddress c.implSlotValue, adminAddress := some ZERO_ADDRESS },
         AnalyzerResult.completed []) ∧
       ∀ newAbi : ExtractedAbi,
         ∃ f ∈ completedFindings
             (analyzeTransparentSafety
               { type := ProxyType.transparent, proxyAddress := proxyAddress, implementationAddress := slotToAddress c.implSlotValue, adminAddress := some ZERO_ADDRESS }
               newAbi),
           f.code = "TPROXY-001" ∧ f.severity = Severity.CRITICAL)) ∧
    ((c.proxyCode = none ∨
      ∃ pc, c.proxyCode = some pc ∧ strContainsSub pc adminSlotHash = false) →
      ((detectProxy c proxyAddress).1 = none ∧
       ∃ f ∈ completedFindings (detectProxy c proxyAddress).2,
         f.code = "PROXY-005")) := by
  constructor
  · intro pc hpc hcontains
    constructor
    · rw [detectProxy]
      rw [hbeacon, hcode, hpc]
      dsimp only
      rw [if_neg (by simp), if_neg himplnz, if_neg hne]
      rw [hnouups, hadmin]
      simp only [ne_eq, not_true_eq_false, if_false, hcontains, if_true]
      simp
    · intro newAbi
      rw [analyzeTransparentSafety]
      dsimp only
      rw [if_pos (by decide)]
      exact ⟨tproxy001Finding (some ZERO_ADDRESS),
        List.mem_append_left _ (List.mem_append_left _
          (List.mem_singleton.mpr rfl)),
        rfl, rfl⟩
  · intro hpc
    have hgoal : detectProxy c proxyAddress =
        (none, AnalyzerResult.completed
          [proxy005Finding (slotToAddress c.implSlotValue) ZERO_ADDRESS]) := by
      rw [detectProxy]
      rw [hbeacon, hcode]
      dsimp only
      rw [if_neg (by simp), if_neg himplnz, if_neg hne]
      rw [hnouups, hadmin]
      rcases hpc with hnone | ⟨pc, hpc, hnc⟩
      · rw [hnone]
        simp
      · rw [hpc]
        simp only [ne_eq, not_true_eq_false, if_false, hnc]
        simp
    rw [hgoal]
    exact ⟨rfl, proxy005Finding (slotToAddress c.implSlotValue) ZERO_ADDRESS,
      List.mem_singleton.mpr rfl, rfl⟩


theorem ambiguous_zero_admin_classification_witness :
    detectProxy chainAmbiguousTransparentEx "0xproxy" =
      (some { type := ProxyType.transparent, proxyAddress := "0xproxy", implementationAddress := "0x111122223333444455556666777788889999aaaa", adminAddress := some ZERO_ADDRESS },
       AnalyzerResult.completed []) ∧
    ((detectProxy chainAmbiguousUnknownEx "0xproxy").1 = none ∧
     ∃ f ∈ completedFindings (detectProxy chainAmbiguousUnknownEx "0xproxy").2,
       f.code = "PROXY-005") :=
  ⟨((ambiguous_zero_admin_classification chainAmbiguousTransparentEx "0xproxy"
      "0x608060405260043610" rfl (by decide) rfl (by decide) (by decide)
      rfl).1
    "0x6080b53127684a568b3173ae13b9f8a6016e243e63b6e8ee1178d6a717850b5d6103ff"
    rfl (by decide)).1,
   (ambiguous_zero_admin_classification chainAmbiguousUnknownEx "0xproxy"
      "0x608060405260043610" rfl (by decide) rfl (by decide) (by decide)
      rfl).2
    (Or.inr ⟨"0x6080deadbeef", rfl, by decide⟩)⟩

/-- C8 counterexample: on the record the orchestrator builds when the
storage analyzer compares `oldLayoutEx` with `newLayoutEx` (a rename plus a
middle insertion) and every other analyzer finds nothing, the aggregated
finding list is [STOR-010, STOR-002]: both findings come from the same
analyzer yet their codes are not in lexicographic order, so the aggregator
performs no sorting by the claimed analyzer/code/location key. -/
theorem aggregator_emits_unsorted_findings :
    ((aggregateResults aggregatorInputEx).findings.map Finding.code =
      ["STOR-010", "STOR-002"]) ∧
    ¬ specCodeSorted
      ((aggregateResults aggregatorInputEx).findings.map Finding.code) := by
  constructor
  · decide
  · intro hsorted
    rw [show (aggregateResults aggregatorInputEx).findings.map Finding.code =
      ["STOR-010", "STOR-002"] from by decide] at hsorted
    rw [specCodeSorted] at hsorted
    have hle : strLexLe "STOR-010" "STOR-002" = true :=
      (List.pairwise_cons.mp hsorted).1 _ (List.mem_singleton.mpr rfl)
    exact absurd hle (by decide)

/-- C8 amended: the aggregator does not sort; the engine finding list is the
concatenation, in the fixed record-insertion order (proxy-detection,
storage-layout, abi-diff, active proxy branch, inactive branch,
initializer-integrity, access-control-regression), of each completed
outcome's findings in emission order.  Since the orchestrator awaits all
fan-out analyzers before recording anything, the list is a pure function of
the outcomes and never depends on completion order — but it is not sorted
by finding code, as the counterexample shows. -/
theorem engine_findings_fixed_concatenation
    (input : EngineInput) (chain : ChainReads) (fan : FanOutOutcomes)
    (now : String)
    (hnb : ((completedFindings (detectProxy chain input.proxyAddress).2).any
      fun f => blockingProxyCodes.contains f.code) = false) :
    (engineAnalyze input chain fan now).findings =
      completedFindings (detectProxy chain input.proxyAddress).2 ++
      completedFindings fan.storageResult ++
      completedFindings fan.abiResult ++
      completedFindings
        (if (detectProxy chain input.proxyAddress).1.map
            (fun p => p.type) = some ProxyType.uups then fan.uupsOutcome
         else if (detectProxy chain input.proxyAddress).1.map
            (fun p => p.type) = some ProxyType.transparent then
           fan.transparentOutcome
         else AnalyzerResult.skipped "proxy-type-unknown") ++
      completedFindings fan.initResult ++
      completedFindings fan.aclResult := by
  rw [engineAnalyze]
  dsimp only
  rw [if_neg (by rw [hnb]; decide)]
  dsimp only
  rw [aggregateResults_findings]
  rw [unionFindings]
  simp only [List.flatMap_cons, List.flatMap_nil, List.append_nil]
  rw [show completedFindings (AnalyzerResult.skipped
    ("proxy-type-is-" ++ proxyTypeText ((detectProxy chain
      input.proxyAddress).1.map (fun p => p.type)))) = [] from rfl]
  simp [List.append_assoc]


theorem engine_findings_fixed_concatenation_witness :
    (engineAnalyze engineInputEx chainUupsEx fanAllCompletedEx
      "2024-03-03T00:00:00.000Z").findings =
      completedFindings
        (detectProxy chainUupsEx engineInputEx.proxyAddress).2 ++
      completedFindings fanAllCompletedEx.storageResult ++
      completedFindings fanAllCompletedEx.abiResult ++
      completedFindings
        (if (detectProxy chainUupsEx engineInputEx.proxyAddress).1.map
            (fun p => p.type) = some ProxyType.uups then
          fanAllCompletedEx.uupsOutcome
         else if (detectProxy chainUupsEx engineInputEx.proxyAddress).1.map
            (fun p => p.type) = some ProxyType.transparent then
          fanAllCompletedEx.transparentOutcome
         else AnalyzerResult.skipped "proxy-type-unknown") ++
      completedFindings fanAllCompletedEx.initResult ++
      completedFindings fanAllCompletedEx.aclResult :=
  engine_findings_fixed_concatenation engineInputEx chainUupsEx
    fanAllCompletedEx "2024-03-03T00:00:00.000Z" (by decide)

end Upgradoor
